import Mathlib

/-
  Verification development for the jbish-kit task-dispatch protocol.

  Shallow embedding of:
  - the shared wire schema (TaskMessage / AgentMessage, zod validation)
    from apps/jbishkit-agent/src/types.ts and packages/cli/src/types.ts,
  - the server-side session state machine (TaskSession) from
    apps/jbishkit-agent/src/durable-objects/TaskSession.ts,
  - the task-executor factory from apps/jbishkit-agent/src/tasks/factory.ts
    and the mock handler from tasks/mock-task.ts,
  - the client (WebSocketClient) and presentation layer (MessageHandler)
    from packages/cli/src/websocket/.

  JSON text frames are modelled by an inductive Json value type; a frame that
  is not valid JSON is modelled by Frame.notJson carrying the parse error
  message.  Throwing / rejecting code is modelled with Except String.
  Wall-clock time (Date.now) is modelled by an explicit counter threaded
  through the session state; each call to the clock advances it by one.
-/

deriving instance DecidableEq for Except

namespace JBishKit

/-- A JSON value, the payload of one WebSocket text frame. -/
inductive Json where
  | null
  | bool (b : Bool)
  | num (n : Int)
  | str (s : String)
  | arr (items : List Json)
  | obj (fields : List (String × Json))

/-- Look a key up in a JSON object (none when the value is not an object or
the key is missing, matching property access on a parsed JS object). -/
def Json.get (j : Json) (key : String) : Option Json :=
  match j with
  | .obj fields => fields.lookup key
  | _ => none

/-- The closed enumeration of task types (TaskType in types.ts). -/
def taskTypeValues : List String :=
  ["task:init", "task:generate_page", "task:generate_agent",
   "task:lint_fix", "task:health_audit", "task:custom"]

/-- auth field of a TaskMessage: two opaque credential strings. -/
structure TaskAuth where
  github : String
  worker : String
deriving DecidableEq

/-- settings field of a TaskMessage: four booleans. -/
structure TaskSettings where
  verbose : Bool
  debug : Bool
  validateFrontend : Bool
  autoMerge : Bool
deriving DecidableEq

/-- A validated TaskMessage (interface TaskMessage in types.ts).  The `type`
field is kept as a string; validation guarantees membership in
`taskTypeValues`.  `args` keeps the raw JSON object fields. -/
structure TaskMessage where
  type : String
  taskId : String
  repo : String
  branch : String
  auth : TaskAuth
  args : List (String × Json)
  settings : TaskSettings

/-- The five AgentMessage kinds. -/
inductive AgentMessageType where
  | log
  | progress
  | error
  | complete
  | pr_created
deriving DecidableEq

/-- Log levels. -/
inductive LogLevel where
  | debug
  | info
  | warn
  | error
deriving DecidableEq

/-- Stagehand validation results carried by pr_created messages. -/
structure ValidationResult where
  passed : Bool
  screenshots : List String
  issues : List String
deriving DecidableEq

/-- The data payload of an AgentMessage; every field is optional. -/
structure MessageData where
  message : Option String := none
  level : Option LogLevel := none
  progress : Option Int := none
  prUrl : Option String := none
  diff : Option String := none
  validation : Option ValidationResult := none
deriving DecidableEq

/-- An AgentMessage (server to client event). -/
structure AgentMessage where
  type : AgentMessageType
  taskId : String
  timestamp : Int
  data : MessageData
deriving DecidableEq

/-- JS truthiness of an optional string (absent and empty are falsy);
models the `x || fallback` idiom. -/
def jsOrStr (o : Option String) (fallback : String) : String :=
  match o with
  | some s => if s = "" then fallback else s
  | none => fallback

/-- JS truthiness test of an optional string (models `if (x)` on a string
field that may be undefined). -/
def jsTruthy (o : Option String) : Bool :=
  match o with
  | some s => decide (s ≠ "")
  | none => false

/-- Rendering of an arbitrary JS value inside a template literal
(used for the mock log naming task.args.pageName). -/
def jsDisplay : Option Json → String
  | none => "undefined"
  | some .null => "null"
  | some (.bool b) => toString b
  | some (.num n) => toString n
  | some (.str s) => s
  | some (.arr _) => ""
  | some (.obj _) => "[object Object]"

/-! ## Zod schema validation (types.ts TaskMessageSchema / AgentMessageSchema) -/

/-- zod z.string() on a required object field: present and a string
(any string, the schema has no non-emptiness refinement). -/
def getStr (j : Json) (key : String) : Except String String :=
  match j.get key with
  | some (.str s) => .ok s
  | _ => .error ("invalid or missing string field: " ++ key)

/-- zod z.boolean() on a required object field. -/
def getBool (j : Json) (key : String) : Except String Bool :=
  match j.get key with
  | some (.bool b) => .ok b
  | _ => .error ("invalid or missing boolean field: " ++ key)

/-- zod z.number() on a required object field. -/
def getNum (j : Json) (key : String) : Except String Int :=
  match j.get key with
  | some (.num n) => .ok n
  | _ => .error ("invalid or missing number field: " ++ key)

/-- A required field that must itself be an object; returns its fields
(z.object / z.record both reject non-objects). -/
def getObjFields (j : Json) (key : String) : Except String (List (String × Json)) :=
  match j.get key with
  | some (.obj fs) => .ok fs
  | _ => .error ("invalid or missing object field: " ++ key)

/-- TaskMessageSchema.parse from types.ts: type must be in the closed
enumeration; taskId, repo, branch are z.string(); auth is an object with
string fields github and worker; args is z.record(z.any()); settings is an
object with the four booleans.  On failure the Except carries the
ZodError message. -/
def TaskMessageSchema.parse (j : Json) : Except String TaskMessage :=
  match j with
  | .obj _ =>
    match j.get "type" with
    | some (.str ty) =>
      if taskTypeValues.contains ty then
        match getStr j "taskId", getStr j "repo", getStr j "branch" with
        | .ok tid, .ok rp, .ok br =>
          match j.get "auth" with
          | some authJ =>
            match getStr authJ "github", getStr authJ "worker" with
            | .ok gh, .ok wk =>
              match getObjFields j "args" with
              | .ok argFields =>
                match j.get "settings" with
                | some settingsJ =>
                  match getBool settingsJ "verbose", getBool settingsJ "debug",
                        getBool settingsJ "validateFrontend",
                        getBool settingsJ "autoMerge" with
                  | .ok v, .ok d, .ok vf, .ok am =>
                    .ok { type := ty, taskId := tid, repo := rp, branch := br,
                          auth := { github := gh, worker := wk },
                          args := argFields,
                          settings := { verbose := v, debug := d,
                                        validateFrontend := vf, autoMerge := am } }
                  | .error e, _, _, _ => .error e
                  | _, .error e, _, _ => .error e
                  | _, _, .error e, _ => .error e
                  | _, _, _, .error e => .error e
                | none => .error "invalid or missing object field: settings"
              | .error e => .error e
            | .error e, _ => .error e
            | _, .error e => .error e
          | none => .error "invalid or missing object field: auth"
        | .error e, _, _ => .error e
        | _, .error e, _ => .error e
        | _, _, .error e => .error e
      else .error ("invalid enum value for field type: " ++ ty)
    | _ => .error "invalid or missing string field: type"
  | _ => .error "expected object for TaskMessage"

/-- Optional string field (zod z.string().optional()): ok when absent,
must be a string when present. -/
def getOptStr (j : Json) (key : String) : Except String (Option String) :=
  match j.get key with
  | none => .ok none
  | some (.str s) => .ok (some s)
  | some _ => .error ("invalid optional string field: " ++ key)

/-- Optional number field. -/
def getOptNum (j : Json) (key : String) : Except String (Option Int) :=
  match j.get key with
  | none => .ok none
  | some (.num n) => .ok (some n)
  | some _ => .error ("invalid optional number field: " ++ key)

/-- Required array-of-strings field (z.array(z.string())). -/
def getStrArray (j : Json) (key : String) : Except String (List String) :=
  match j.get key with
  | some (.arr items) =>
    items.foldr
      (fun item acc =>
        match item, acc with
        | .str s, .ok ss => .ok (s :: ss)
        | _, .ok _ => .error ("invalid string array field: " ++ key)
        | _, .error e => .error e)
      (.ok [])
  | _ => .error ("invalid or missing array field: " ++ key)

/-- Map the wire string of an AgentMessage type to the enumeration. -/
def agentTypeOfString : String → Option AgentMessageType
  | "log" => some .log
  | "progress" => some .progress
  | "error" => some .error
  | "complete" => some .complete
  | "pr_created" => some .pr_created
  | _ => none

/-- Map the wire string of a log level to the enumeration. -/
def logLevelOfString : String → Option LogLevel
  | "debug" => some .debug
  | "info" => some .info
  | "warn" => some .warn
  | "error" => some .error
  | _ => none

/-- Optional log-level field (z.enum([...]).optional()). -/
def getOptLevel (j : Json) (key : String) : Except String (Option LogLevel) :=
  match j.get key with
  | none => .ok none
  | some (.str s) =>
    match logLevelOfString s with
    | some lvl => .ok (some lvl)
    | none => .error ("invalid enum value for field " ++ key)
  | some _ => .error ("invalid optional enum field: " ++ key)

/-- Optional validation payload (the nested z.object in AgentMessageSchema). -/
def getOptValidation (j : Json) (key : String) : Except String (Option ValidationResult) :=
  match j.get key with
  | none => .ok none
  | some vj =>
    match getBool vj "passed", getStrArray vj "screenshots", getStrArray vj "issues" with
    | .ok p, .ok ss, .ok iss => .ok (some { passed := p, screenshots := ss, issues := iss })
    | .error e, _, _ => .error e
    | _, .error e, _ => .error e
    | _, _, .error e => .error e

/-- AgentMessageSchema.parse from packages/cli/src/types.ts. -/
def AgentMessageSchema.parse (j : Json) : Except String AgentMessage :=
  match j with
  | .obj _ =>
    match j.get "type" with
    | some (.str tyStr) =>
      match agentTypeOfString tyStr with
      | some ty =>
        match getStr j "taskId", getNum j "timestamp" with
        | .ok tid, .ok ts =>
          match j.get "data" with
          | some dataJ =>
            match dataJ with
            | .obj _ =>
              match getOptStr dataJ "message", getOptLevel dataJ "level",
                    getOptNum dataJ "progress", getOptStr dataJ "prUrl",
                    getOptStr dataJ "diff", getOptValidation dataJ "validation" with
              | .ok msg, .ok lvl, .ok pr, .ok url, .ok df, .ok vr =>
                .ok { type := ty, taskId := tid, timestamp := ts,
                      data := { message := msg, level := lvl, progress := pr,
                                prUrl := url, diff := df, validation := vr } }
              | .error e, _, _, _, _, _ => .error e
              | _, .error e, _, _, _, _ => .error e
              | _, _, .error e, _, _, _ => .error e
              | _, _, _, .error e, _, _ => .error e
              | _, _, _, _, .error e, _ => .error e
              | _, _, _, _, _, .error e => .error e
            | _ => .error "invalid or missing object field: data"
          | none => .error "invalid or missing object field: data"
        | .error e, _ => .error e
        | _, .error e => .error e
      | none => .error ("invalid enum value for field type: " ++ tyStr)
    | _ => .error "invalid or missing string field: type"
  | _ => .error "expected object for AgentMessage"

/-! ## Wire frames -/

/-- One inbound WebSocket text frame: either not valid JSON (JSON.parse
throws with the given message) or a parsed JSON value. -/
inductive Frame where
  | notJson (parseError : String)
  | jsonFrame (j : Json)

/-- The server receive path applied to a frame: JSON.parse followed by
TaskMessageSchema.parse; either step throwing surfaces as the error. -/
def parseTaskFrame : Frame → Except String TaskMessage
  | .notJson e => .error e
  | .jsonFrame j => TaskMessageSchema.parse j

/-- The client receive path applied to a frame: JSON.parse followed by
AgentMessageSchema.parse. -/
def parseAgentFrame : Frame → Except String AgentMessage
  | .notJson e => .error e
  | .jsonFrame j => AgentMessageSchema.parse j

/-! ## Server-side session (TaskSession.ts) -/

/-- State of one TaskSession Durable Object.  `sent` is the ordered list of
AgentMessages written to the socket; `accepted` is a ghost trace recording,
for each validated TaskMessage that was dispatched to `executeTask`, its
(type, taskId) pair; `now` models the wall clock read by Date.now(). -/
structure TaskSession where
  taskId : Option String := none
  wsOpen : Bool := true
  sent : List AgentMessage := []
  accepted : List (String × String) := []
  now : Int := 0

/-- sendMessage: writes to the socket only when it is open, silently drops
otherwise. -/
def TaskSession.sendMessage (s : TaskSession) (m : AgentMessage) : TaskSession :=
  if s.wsOpen then { s with sent := s.sent ++ [m] } else s

/-- One Date.now() call: the clock advances. -/
def TaskSession.tick (s : TaskSession) : TaskSession :=
  { s with now := s.now + 1 }

/-- TaskSession.log: no-op when no task is bound, otherwise wraps the text
into a log AgentMessage for the bound taskId. -/
def TaskSession.log (s : TaskSession) (message : String) (level : LogLevel) : TaskSession :=
  match s.taskId with
  | none => s
  | some tid =>
    (s.sendMessage { type := .log, taskId := tid, timestamp := s.now,
                     data := { message := some message, level := some level } }).tick

/-- TaskSession.progress: no-op when no task is bound, otherwise wraps the
percentage (passed through verbatim, no clamping) into a progress message. -/
def TaskSession.progress (s : TaskSession) (percent : Int) (message : Option String) : TaskSession :=
  match s.taskId with
  | none => s
  | some tid =>
    (s.sendMessage { type := .progress, taskId := tid, timestamp := s.now,
                     data := { progress := some percent, message := message } }).tick

/-- One emission a handler performs through the session surface while its
execute(task) promise runs: the BaseTask log/progress helpers, or a raw
session.sendMessage (used for structured payloads such as pr_created). -/
inductive EmitCmd where
  | log (message : String) (level : LogLevel)
  | progress (percent : Int) (message : Option String)
  | send (m : AgentMessage)

/-- Synchronous outcome of a handler execute(task) promise: resolves, or
rejects with an Error carrying the given message. -/
inductive Outcome where
  | ok
  | thrown (message : String)

/-- A handler run: the ordered emissions performed through the session,
followed by the promise outcome. -/
structure HandlerRun where
  cmds : List EmitCmd
  outcome : Outcome

/-- Replay a list of handler emissions against the session. -/
def TaskSession.runCmds (s : TaskSession) : List EmitCmd → TaskSession
  | [] => s
  | .log m lvl :: rest => (s.log m lvl).runCmds rest
  | .progress p m :: rest => (s.progress p m).runCmds rest
  | .send m :: rest => (s.sendMessage m).runCmds rest

/-- TaskSession.executeTask: runs the handler inside one try/catch; when the
factory call or the execute promise throws, the single catch logs the
failure and sends exactly one error message; otherwise a complete message
is sent.  `fr` is the joint result of createTaskExecutor and execute:
a synchronous factory throw is Except.error, and a handler rejection is an
ok run with a thrown outcome. -/
def TaskSession.executeTask (s : TaskSession) (task : TaskMessage)
    (fr : Except String HandlerRun) : TaskSession :=
  match fr with
  | .ok run =>
    let s1 := s.runCmds run.cmds
    match run.outcome with
    | .ok =>
      (s1.sendMessage { type := .complete, taskId := task.taskId, timestamp := s1.now,
                        data := { message := some "Task completed successfully" } }).tick
    | .thrown e =>
      let s2 := s1.log ("Task execution failed: " ++ e) .error
      (s2.sendMessage { type := .error, taskId := task.taskId, timestamp := s2.now,
                        data := { message := some e } }).tick
  | .error e =>
    let s1 := s.log ("Task execution failed: " ++ e) .error
    (s1.sendMessage { type := .error, taskId := task.taskId, timestamp := s1.now,
                      data := { message := some e } }).tick

/-- The accepted-task path of handleMessage: bind the taskId, log receipt,
record the dispatch in the ghost trace, and execute. -/
def TaskSession.acceptTask (s : TaskSession) (task : TaskMessage)
    (runOf : TaskMessage → Except String HandlerRun) : TaskSession :=
  let s1 := { s with taskId := some task.taskId }
  let s2 := s1.log ("Received task: " ++ task.type) .info
  let s3 := { s2 with accepted := s2.accepted ++ [(task.type, task.taskId)] }
  s3.executeTask task (runOf task)

/-- TaskSession.handleMessage: parse and validate the frame inside one
try/catch; a validated TaskMessage is always dispatched (there is no
terminal-state guard in the source), and any parse or validation failure is
caught, logged, and answered with an error message whose taskId falls back
to "unknown" (the JS `this.taskId || "unknown"`). -/
def TaskSession.handleMessage (s : TaskSession) (frame : Frame)
    (runOf : TaskMessage → Except String HandlerRun) : TaskSession :=
  match parseTaskFrame frame with
  | .ok task => s.acceptTask task runOf
  | .error e =>
    let s1 := s.log ("Error handling message: " ++ e) .error
    (s1.sendMessage { type := .error, taskId := jsOrStr s.taskId "unknown",
                      timestamp := s1.now, data := { message := some e } }).tick

/-! ## Task executor factory (tasks/factory.ts) and mock handler -/

/-- The handler classes the factory can instantiate. -/
inductive TaskHandlerKind where
  | generatePageTask
  | mockTask
deriving DecidableEq

/-- createTaskExecutor from tasks/factory.ts: task:generate_page gets the
GeneratePageTask, four other cases get the MockTask, and the default case
throws synchronously.  Note the switch has no case for task:init. -/
def createTaskExecutor (type : String) : Except String TaskHandlerKind :=
  if type = "task:generate_page" then .ok .generatePageTask
  else if type = "task:generate_agent" then .ok .mockTask
  else if type = "task:lint_fix" then .ok .mockTask
  else if type = "task:health_audit" then .ok .mockTask
  else if type = "task:custom" then .ok .mockTask
  else .error ("Unknown task type: " ++ type)

/-- The emissions and outcome of MockTask.execute from tasks/mock-task.ts
(the sleeps emit nothing). -/
def mockTaskRun (task : TaskMessage) : HandlerRun :=
  { cmds := [
      .log ("Executing mock task: " ++ task.type) .info,
      .progress 25 (some "Starting task..."),
      .progress 50 (some "Processing..."),
      .progress 75 (some "Finalizing..."),
      .progress 100 (some "Task completed"),
      .log "Mock task completed successfully" .info ],
    outcome := .ok }

/-- Combine the factory with a behaviour for each handler class: a factory
throw is the Except error, otherwise the chosen handler runs. -/
def runOfFactory (execRunOf : TaskHandlerKind → TaskMessage → HandlerRun)
    (task : TaskMessage) : Except String HandlerRun :=
  (createTaskExecutor task.type).map (fun h => execRunOf h task)

/-- A handler-behaviour table where every instantiated handler behaves like
the MockTask (the GeneratePageTask source is not part of the dispatch
contract being checked here). -/
def mockExec : TaskHandlerKind → TaskMessage → HandlerRun :=
  fun _ t => mockTaskRun t

/-! ## Client-side presentation (websocket/message-handler.ts, logger.ts) -/

/-- One line of console output produced by the Logger.  The ora spinner used
for progress rendering is abstracted into a single progressBar event. -/
inductive RenderEvent where
  | debugLine (message : String)
  | infoLine (message : String)
  | warnLine (message : String)
  | errorLine (message : String)
  | successLine (message : String)
  | progressBar (percent : Int) (message : Option String)
deriving DecidableEq

/-- A settlement of the completion future: resolve() or reject(Error(msg)). -/
inductive Settle where
  | resolved
  | rejected (message : String)
deriving DecidableEq

/-- State of a MessageHandler together with its Logger flags.
`completionPending` records whether a completion future is outstanding;
`settles` is the ordered trace of resolve/reject effects performed on
completion futures. -/
structure MessageHandler where
  verbose : Bool := true
  debug : Bool := false
  completionPending : Bool := false
  prUrl : Option String := none
  validationResult : Option ValidationResult := none
  output : List RenderEvent := []
  settles : List Settle := []

/-- Logger.info: prints only when verbose. -/
def MessageHandler.logInfo (h : MessageHandler) (m : String) : MessageHandler :=
  if h.verbose then { h with output := h.output ++ [.infoLine m] } else h

/-- Logger.debug: prints only when the debug flag is set. -/
def MessageHandler.logDebug (h : MessageHandler) (m : String) : MessageHandler :=
  if h.debug then { h with output := h.output ++ [.debugLine m] } else h

/-- Logger.warn: unconditional. -/
def MessageHandler.logWarn (h : MessageHandler) (m : String) : MessageHandler :=
  { h with output := h.output ++ [.warnLine m] }

/-- Logger.error: unconditional. -/
def MessageHandler.logError (h : MessageHandler) (m : String) : MessageHandler :=
  { h with output := h.output ++ [.errorLine m] }

/-- Logger.success: unconditional. -/
def MessageHandler.logSuccess (h : MessageHandler) (m : String) : MessageHandler :=
  { h with output := h.output ++ [.successLine m] }

/-- Logger.progress: renders the proportional bar. -/
def MessageHandler.logProgress (h : MessageHandler) (p : Int) (m : Option String) : MessageHandler :=
  { h with output := h.output ++ [.progressBar p m] }

/-- handleLog: a log message with no data.message is a no-op; the level
defaults to info when absent. -/
def MessageHandler.handleLog (h : MessageHandler) (m : AgentMessage) : MessageHandler :=
  match m.data.message with
  | none => h
  | some msg =>
    match m.data.level with
    | some .debug => h.logDebug msg
    | some .info => h.logInfo msg
    | some .warn => h.logWarn msg
    | some .error => h.logError msg
    | none => h.logInfo msg

/-- handleProgress: messages with progress omitted are ignored. -/
def MessageHandler.handleProgress (h : MessageHandler) (m : AgentMessage) : MessageHandler :=
  match m.data.progress with
  | some p => h.logProgress p m.data.message
  | none => h

/-- handleError: renders a failure line, and if a completion future is
outstanding rejects it (with the JS-falsy fallback "Task failed") and
clears it. -/
def MessageHandler.handleError (h : MessageHandler) (m : AgentMessage) : MessageHandler :=
  let h1 := h.logError (jsOrStr m.data.message "Unknown error")
  if h1.completionPending then
    { h1 with completionPending := false,
              settles := h1.settles ++ [.rejected (jsOrStr m.data.message "Task failed")] }
  else h1

/-- The validation-verdict rendering of handlePRCreated. -/
def MessageHandler.prCreatedValidation (h2 : MessageHandler)
    (vr : Option ValidationResult) : MessageHandler :=
  match vr with
  | none => h2
  | some v =>
    if v.passed then h2.logSuccess "✓ Frontend validation passed"
    else
      v.issues.foldl (fun acc issue => acc.logWarn ("  - " ++ issue))
        (h2.logWarn "⚠ Frontend validation failed:")

/-- handlePRCreated: stores the payload (overwriting, even with undefined)
and renders a success line plus the validation verdict. -/
def MessageHandler.handlePRCreated (h : MessageHandler) (m : AgentMessage) : MessageHandler :=
  (({ h with prUrl := m.data.prUrl, validationResult := m.data.validation }).logSuccess
      ("Pull request created: " ++ jsDisplay (m.data.prUrl.map Json.str))).prCreatedValidation
    m.data.validation

/-- The next-steps reminder block of handleComplete: rendered only when a
JS-truthy PR URL was observed earlier. -/
def MessageHandler.completeNext (h1 : MessageHandler) : MessageHandler :=
  if jsTruthy h1.prUrl then
    match h1.prUrl with
    | some url =>
      (((h1.logInfo "\nNext steps:").logInfo ("  1. Review the PR: " ++ url)).logInfo
          "  2. Merge when ready").logInfo "  3. Pull changes: jbish pull"
    | none => h1
  else h1

/-- The completion-future resolution step of handleComplete. -/
def MessageHandler.completeFinish (h2 : MessageHandler) : MessageHandler :=
  if h2.completionPending then
    { h2 with completionPending := false, settles := h2.settles ++ [.resolved] }
  else h2

/-- handleComplete: renders a success line, the next-steps reminder when a
(JS-truthy) PR URL was observed, and resolves an outstanding future. -/
def MessageHandler.handleComplete (h : MessageHandler) (m : AgentMessage) : MessageHandler :=
  ((h.logSuccess (jsOrStr m.data.message "Task completed")).completeNext).completeFinish

/-- MessageHandler.handle: dispatch on the validated message type. -/
def MessageHandler.handle (h : MessageHandler) (m : AgentMessage) : MessageHandler :=
  match m.type with
  | .log => h.handleLog m
  | .progress => h.handleProgress m
  | .error => h.handleError m
  | .pr_created => h.handlePRCreated m
  | .complete => h.handleComplete m

/-- waitForCompletion: installs a fresh completion future. -/
def MessageHandler.waitForCompletion (h : MessageHandler) : MessageHandler :=
  { h with completionPending := true }

/-- getPRUrl accessor. -/
def MessageHandler.getPRUrl (h : MessageHandler) : Option String :=
  h.prUrl

/-- Deliver a list of messages to the handler in order (the mock path calls
messageHandler.handle directly for each scheduled message). -/
def MessageHandler.deliverAll (h : MessageHandler) (msgs : List AgentMessage) : MessageHandler :=
  msgs.foldl MessageHandler.handle h

/-! ## Client (websocket/client.ts) -/

/-- Constructor options of WebSocketClient. -/
structure WebSocketClientOptions where
  agentUrl : String
  verbose : Bool := true
  debug : Bool := false
  useMock : Bool := false

/-- State of a WebSocketClient.  `wsConnected` records whether a real
transport was opened; `console` is the local diagnostic log. -/
structure WebSocketClient where
  options : WebSocketClientOptions
  wsConnected : Bool := false
  messageHandler : MessageHandler
  taskId : Option String := none
  console : List String := []

/-- The WebSocketClient constructor (message handler inherits the verbose
and debug options, with the source defaults). -/
def WebSocketClient.mk1 (options : WebSocketClientOptions) : WebSocketClient :=
  { options := options,
    messageHandler := { verbose := options.verbose, debug := options.debug } }

/-- connect(): the mock branch logs and resolves immediately without
creating any WebSocket; the real branch opens the transport and resolves or
rejects with its readiness, which is an input to the model. -/
def WebSocketClient.connect (c : WebSocketClient) (transportReady : Bool) :
    Except String WebSocketClient :=
  if c.options.useMock then
    .ok { c with console := c.console ++ ["Using mock WebSocket client"] }
  else if transportReady then .ok { c with wsConnected := true }
  else .error "WebSocket error"

/-- simulateMockResponse from websocket/client.ts: the fixed simulated
event stream for a task, with Date.now() read once as `now`. -/
def simulateMockResponse (task : TaskMessage) (now : Int) : List AgentMessage :=
  [ { type := .log, taskId := task.taskId, timestamp := now,
      data := { message := some ("Starting task: " ++ task.type), level := some .info } },
    { type := .progress, taskId := task.taskId, timestamp := now + 1000,
      data := { progress := some 25, message := some "Cloning repository..." } },
    { type := .progress, taskId := task.taskId, timestamp := now + 2000,
      data := { progress := some 50, message := some "Analyzing project structure..." } },
    { type := .progress, taskId := task.taskId, timestamp := now + 3000,
      data := { progress := some 75, message := some "Generating code..." } } ]
  ++ (if task.type = "task:generate_page" then
        [ { type := .log, taskId := task.taskId, timestamp := now + 4000,
            data := { message := some ("Creating page: " ++ jsDisplay (task.args.lookup "pageName")),
                      level := some .info } } ]
        ++ (if task.settings.validateFrontend then
              [ { type := .log, taskId := task.taskId, timestamp := now + 5000,
                  data := { message := some "Running frontend validation...",
                            level := some .info } } ]
            else [])
      else [])
  ++ [ { type := .pr_created, taskId := task.taskId, timestamp := now + 6000,
         data := { prUrl := some "https://github.com/example/repo/pull/123",
                   message := some "Pull request created successfully",
                   validation :=
                     if task.settings.validateFrontend then
                       some { passed := true, screenshots := ["screenshot-1.png"], issues := [] }
                     else none } },
       { type := .complete, taskId := task.taskId, timestamp := now + 7000,
         data := { message := some "Task completed successfully" } } ]

/-- sendTask(): records the taskId; the mock branch returns the taskId and
the scheduled simulated stream without touching any transport; the real
branch throws "WebSocket not connected" when the transport is not open. -/
def WebSocketClient.sendTask (c : WebSocketClient) (task : TaskMessage) (now : Int) :
    Except String (String × WebSocketClient × List AgentMessage) :=
  let c1 := { c with taskId := some task.taskId }
  if c1.options.useMock then
    .ok (task.taskId, c1, simulateMockResponse task now)
  else if c1.wsConnected then
    .ok (task.taskId, c1, [])
  else .error "WebSocket not connected"

/-- WebSocketClient.handleMessage: parse and validate inside one try/catch;
valid messages go to the MessageHandler, failures are logged to the console
and the frame is dropped. -/
def WebSocketClient.handleMessage (c : WebSocketClient) (frame : Frame) : WebSocketClient :=
  match parseAgentFrame frame with
  | .ok msg => { c with messageHandler := c.messageHandler.handle msg }
  | .error e => { c with console := c.console ++ ["Failed to parse agent message: " ++ e] }

/-- The client options built by the generatePage command
(commands/generate.ts): useMock is hard-coded to true. -/
def generatePageClientOptions (agentUrl : String) (verbose debug : Bool) : WebSocketClientOptions :=
  { agentUrl := agentUrl, verbose := verbose, debug := debug, useMock := true }

/-! ## Observables and helper predicates -/

/-- A terminal AgentMessage: complete or error. -/
def isTerminal (m : AgentMessage) : Bool :=
  match m.type with
  | .complete => true
  | .error => true
  | _ => false

/-- Whether a handler emission sends a terminal-typed raw message. -/
def EmitCmd.isTerminalSend : EmitCmd → Bool
  | .send m => isTerminal m
  | _ => false

/-- A handler result whose raw sends contain no terminal-typed message
(its own log and progress emissions are never terminal). -/
def noTerminalRun : Except String HandlerRun → Bool
  | .ok run => run.cmds.all fun c => c.isTerminalSend == false
  | .error _ => true

/-- Whether one handler emission, if it is a raw send, carries the given
taskId (log and progress always do, through the session). -/
def sendCarries (tid : String) : EmitCmd → Bool
  | .send m => m.taskId == tid
  | _ => true

/-- A handler result all of whose raw sends carry the given taskId (the
way pr_created payloads are built from the triggering task). -/
def sendsCarry (tid : String) : Except String HandlerRun → Bool
  | .ok run => run.cmds.all (sendCarries tid)
  | .error _ => true

/-- Failure carried by a joint factory-and-execute result: none when the
handler resolved, the error message when either step threw. -/
def handlerFailure : Except String HandlerRun → Option String
  | .error e => some e
  | .ok run =>
    match run.outcome with
    | .ok => none
    | .thrown e => some e

/-- The messages a step from state s to state s2 appended to the socket. -/
def emittedBy (s s2 : TaskSession) : List AgentMessage :=
  s2.sent.drop s.sent.length

/-! ## Structural lemmas about the session operations -/

lemma sendMessage_fields (s : TaskSession) (m : AgentMessage) :
    (s.sendMessage m).taskId = s.taskId ∧ (s.sendMessage m).wsOpen = s.wsOpen ∧
    (s.sendMessage m).accepted = s.accepted ∧
    (s.sendMessage m).sent = s.sent ++ (if s.wsOpen then [m] else []) := by
  unfold TaskSession.sendMessage
  split <;> simp_all

lemma tick_fields (s : TaskSession) :
    (s.tick).taskId = s.taskId ∧ (s.tick).wsOpen = s.wsOpen ∧
    (s.tick).accepted = s.accepted ∧ (s.tick).sent = s.sent := by
  unfold TaskSession.tick
  simp

lemma log_out (s : TaskSession) (msg : String) (lvl : LogLevel) :
    (s.log msg lvl).taskId = s.taskId ∧ (s.log msg lvl).wsOpen = s.wsOpen ∧
    (s.log msg lvl).accepted = s.accepted ∧
    ∃ out, (s.log msg lvl).sent = s.sent ++ out ∧
      ∀ m ∈ out, m.type = AgentMessageType.log ∧
        ∀ tid, s.taskId = some tid → m.taskId = tid := by
  unfold TaskSession.log
  match h : s.taskId with
  | none => simp [h]
  | some tid =>
    refine ⟨?_, ?_, ?_, ?_⟩
    · simp [TaskSession.tick, TaskSession.sendMessage]; split <;> simp [h]
    · simp [TaskSession.tick, TaskSession.sendMessage]; split <;> simp
    · simp [TaskSession.tick, TaskSession.sendMessage]; split <;> simp
    · by_cases hw : s.wsOpen
      · exact ⟨[{ type := .log, taskId := tid, timestamp := s.now,
                  data := { message := some msg, level := some lvl } }],
          by simp [TaskSession.tick, TaskSession.sendMessage, hw],
          by intro m hm; simp at hm; subst hm; simp [h]⟩
      · exact ⟨[], by simp [TaskSession.tick, TaskSession.sendMessage, hw], by simp⟩

lemma progress_out (s : TaskSession) (p : Int) (msg : Option String) :
    (s.progress p msg).taskId = s.taskId ∧ (s.progress p msg).wsOpen = s.wsOpen ∧
    (s.progress p msg).accepted = s.accepted ∧
    ∃ out, (s.progress p msg).sent = s.sent ++ out ∧
      ∀ m ∈ out, m.type = AgentMessageType.progress ∧
        ∀ tid, s.taskId = some tid → m.taskId = tid := by
  unfold TaskSession.progress
  match h : s.taskId with
  | none => simp [h]
  | some tid =>
    refine ⟨?_, ?_, ?_, ?_⟩
    · simp [TaskSession.tick, TaskSession.sendMessage]; split <;> simp [h]
    · simp [TaskSession.tick, TaskSession.sendMessage]; split <;> simp
    · simp [TaskSession.tick, TaskSession.sendMessage]; split <;> simp
    · by_cases hw : s.wsOpen
      · exact ⟨[{ type := .progress, taskId := tid, timestamp := s.now,
                  data := { progress := some p, message := msg } }],
          by simp [TaskSession.tick, TaskSession.sendMessage, hw],
          by intro m hm; simp at hm; subst hm; simp [h]⟩
      · exact ⟨[], by simp [TaskSession.tick, TaskSession.sendMessage, hw], by simp⟩

/-- Master lemma for replaying handler emissions: the session identity
fields are preserved, the socket log only grows, raw-send-free-of-terminals
runs append no terminal message, and when a task is bound and every raw
send carries its id, so does everything appended. -/
lemma runCmds_master (cmds : List EmitCmd) : ∀ s : TaskSession,
    (s.runCmds cmds).taskId = s.taskId ∧
    (s.runCmds cmds).wsOpen = s.wsOpen ∧
    (s.runCmds cmds).accepted = s.accepted ∧
    ∃ out, (s.runCmds cmds).sent = s.sent ++ out ∧
      ∀ m ∈ out,
        ((cmds.all fun c => c.isTerminalSend == false) = true → isTerminal m = false) ∧
        (∀ tid, s.taskId = some tid → cmds.all (sendCarries tid) = true → m.taskId = tid) := by
  induction cmds with
  | nil => intro s; simp [TaskSession.runCmds]
  | cons c rest ih =>
    intro s
    match c with
    | .log msg lvl =>
      obtain ⟨h1, h2, h3, out1, hout1, hprop1⟩ := log_out s msg lvl
      obtain ⟨g1, g2, g3, out2, hout2, hprop2⟩ := ih (s.log msg lvl)
      refine ⟨by simp [TaskSession.runCmds, g1, h1],
              by simp [TaskSession.runCmds, g2, h2],
              by simp [TaskSession.runCmds, g3, h3],
              out1 ++ out2, by simp [TaskSession.runCmds, hout2, hout1], ?_⟩
      intro m hm
      rcases List.mem_append.mp hm with hmem | hmem
      · obtain ⟨hty, htid⟩ := hprop1 m hmem
        refine ⟨fun _ => by simp [isTerminal, hty], fun tid hs _ => htid tid hs⟩
      · obtain ⟨hterm, htid⟩ := hprop2 m hmem
        refine ⟨fun hall => hterm (by simp_all [List.all_cons]),
                fun tid hs hall => htid tid (h1.trans hs) (by simp_all [List.all_cons])⟩
    | .progress p pm =>
      obtain ⟨h1, h2, h3, out1, hout1, hprop1⟩ := progress_out s p pm
      obtain ⟨g1, g2, g3, out2, hout2, hprop2⟩ := ih (s.progress p pm)
      refine ⟨by simp [TaskSession.runCmds, g1, h1],
              by simp [TaskSession.runCmds, g2, h2],
              by simp [TaskSession.runCmds, g3, h3],
              out1 ++ out2, by simp [TaskSession.runCmds, hout2, hout1], ?_⟩
      intro m hm
      rcases List.mem_append.mp hm with hmem | hmem
      · obtain ⟨hty, htid⟩ := hprop1 m hmem
        refine ⟨fun _ => by simp [isTerminal, hty], fun tid hs _ => htid tid hs⟩
      · obtain ⟨hterm, htid⟩ := hprop2 m hmem
        refine ⟨fun hall => hterm (by simp_all [List.all_cons]),
                fun tid hs hall => htid tid (h1.trans hs) (by simp_all [List.all_cons])⟩
    | .send raw =>
      obtain ⟨h1, h2, h3, h4⟩ := sendMessage_fields s raw
      obtain ⟨g1, g2, g3, out2, hout2, hprop2⟩ := ih (s.sendMessage raw)
      refine ⟨by simp [TaskSession.runCmds, g1, h1],
              by simp [TaskSession.runCmds, g2, h2],
              by simp [TaskSession.runCmds, g3, h3],
              (if s.wsOpen then [raw] else []) ++ out2,
              by simp [TaskSession.runCmds, hout2, h4], ?_⟩
      intro m hm
      rcases List.mem_append.mp hm with hmem | hmem
      · have hmr : m = raw := by
          by_cases hw : s.wsOpen <;> simp [hw] at hmem
          exact hmem
        subst hmr
        constructor
        · intro hall
          have : EmitCmd.isTerminalSend (.send m) = false := by
            simp [List.all_cons] at hall
            simpa using hall.1
          simpa [EmitCmd.isTerminalSend] using this
        · intro tid _ hall
          have : sendCarries tid (.send m) = true := by
            simp [List.all_cons] at hall
            simpa using hall.1
          simpa [sendCarries] using this
      · obtain ⟨hterm, htid⟩ := hprop2 m hmem
        refine ⟨fun hall => hterm (by simp_all [List.all_cons]),
                fun tid hs hall => htid tid (h1.trans hs) (by simp_all [List.all_cons])⟩

/-! ## Claim C1 -/

/-- Claim C1: for every accepted TaskMessage, executeTask emits exactly one
terminal AgentMessage (complete when the joint factory-and-execute result
resolves, error when it throws or rejects), that terminal message is the
last event emitted and carries the task taskId, and a failure is converted
into exactly one error message whose data.message is the failure text (the
catch returns normally, so nothing propagates further).  The handler run is
assumed not to raw-send terminal-typed messages itself, which is how every
handler behaves through the log/progress surface. -/
theorem C1_executeTask_single_terminal
    (task : TaskMessage) (fr : Except String HandlerRun) (s : TaskSession)
    (hopen : s.wsOpen = true) (hnt : noTerminalRun fr = true) :
    ∃ pre m, emittedBy s (s.executeTask task fr) = pre ++ [m] ∧
      (∀ x ∈ pre, isTerminal x = false) ∧
      isTerminal m = true ∧
      m.taskId = task.taskId ∧
      (m.type = AgentMessageType.complete ↔ handlerFailure fr = none) ∧
      (∀ e, handlerFailure fr = some e →
        m.type = AgentMessageType.error ∧ m.data.message = some e) := by
  match fr with
  | .ok run =>
    obtain ⟨h1, h2, h3, out, hout, hprop⟩ := runCmds_master run.cmds s
    have hnt2 : (run.cmds.all fun c => c.isTerminalSend == false) = true := by
      simpa [noTerminalRun] using hnt
    have hopen1 : (s.runCmds run.cmds).wsOpen = true := h2.trans hopen
    match hoc : run.outcome with
    | .ok =>
      refine ⟨out,
        { type := .complete, taskId := task.taskId,
          timestamp := (s.runCmds run.cmds).now,
          data := { message := some "Task completed successfully" } }, ?_, ?_, ?_, ?_, ?_, ?_⟩
      · have hsent : (s.executeTask task (.ok run)).sent =
            s.sent ++ (out ++
              [{ type := .complete, taskId := task.taskId,
                 timestamp := (s.runCmds run.cmds).now,
                 data := { message := some "Task completed successfully" } }]) := by
          simp [TaskSession.executeTask, hoc, TaskSession.sendMessage, TaskSession.tick,
                hopen1, hout]
        rw [emittedBy, hsent, List.drop_left]
      · intro x hx; exact (hprop x hx).1 hnt2
      · rfl
      · rfl
      · simp [handlerFailure, hoc]
      · intro e he; simp [handlerFailure, hoc] at he
    | .thrown e =>
      obtain ⟨l1, l2, l3, out2, hout2, hprop2⟩ :=
        log_out (s.runCmds run.cmds) ("Task execution failed: " ++ e) .error
      have hopen2 : ((s.runCmds run.cmds).log ("Task execution failed: " ++ e) .error).wsOpen
          = true := l2.trans hopen1
      refine ⟨out ++ out2,
        { type := .error, taskId := task.taskId,
          timestamp := ((s.runCmds run.cmds).log ("Task execution failed: " ++ e) .error).now,
          data := { message := some e } }, ?_, ?_, ?_, ?_, ?_, ?_⟩
      · have hsent : (s.executeTask task (.ok run)).sent =
            s.sent ++ ((out ++ out2) ++
              [{ type := .error, taskId := task.taskId,
                 timestamp :=
                   ((s.runCmds run.cmds).log ("Task execution failed: " ++ e) .error).now,
                 data := { message := some e } }]) := by
          simp [TaskSession.executeTask, hoc, TaskSession.sendMessage, TaskSession.tick,
                hopen2, hout2, hout]
        rw [emittedBy, hsent, List.drop_left]
      · intro x hx
        rcases List.mem_append.mp hx with hmem | hmem
        · exact (hprop x hmem).1 hnt2
        · simp [isTerminal, (hprop2 x hmem).1]
      · rfl
      · rfl
      · constructor
        · intro hty; exact absurd hty (by simp)
        · intro hfail; simp [handlerFailure, hoc] at hfail
      · intro e2 he2
        have : e = e2 := by simpa [handlerFailure, hoc] using he2
        subst this
        exact ⟨rfl, rfl⟩
  | .error e =>
    obtain ⟨l1, l2, l3, out1, hout1, hprop1⟩ :=
      log_out s ("Task execution failed: " ++ e) .error
    have hopen1 : (s.log ("Task execution failed: " ++ e) .error).wsOpen = true :=
      l2.trans hopen
    refine ⟨out1,
      { type := .error, taskId := task.taskId,
        timestamp := (s.log ("Task execution failed: " ++ e) .error).now,
        data := { message := some e } }, ?_, ?_, ?_, ?_, ?_, ?_⟩
    · have hsent : (s.executeTask task (.error e)).sent =
          s.sent ++ (out1 ++
            [{ type := .error, taskId := task.taskId,
               timestamp := (s.log ("Task execution failed: " ++ e) .error).now,
               data := { message := some e } }]) := by
        simp [TaskSession.executeTask, TaskSession.sendMessage, TaskSession.tick,
              hopen1, hout1]
      rw [emittedBy, hsent, List.drop_left]
    · intro x hx; simp [isTerminal, (hprop1 x hx).1]
    · rfl
    · rfl
    · constructor
      · intro hty; exact absurd hty (by simp)
      · intro hfail; simp [handlerFailure] at hfail
    · intro e2 he2
      have : e = e2 := by simpa [handlerFailure] using he2
      subst this
      exact ⟨rfl, rfl⟩

/-- A concrete task used to witness C1. -/
def sampleTaskC1 : TaskMessage :=
  { type := "task:custom", taskId := "t-c1", repo := "repo-url", branch := "main",
    auth := { github := "gh-token", worker := "jwt" }, args := [],
    settings := { verbose := true, debug := false,
                  validateFrontend := false, autoMerge := false } }

/-- Witness for C1 at the MockTask run on a fresh session. -/
theorem C1_executeTask_single_terminal_witness :
    ((({} : TaskSession).wsOpen = true ∧
      noTerminalRun (.ok (mockTaskRun sampleTaskC1)) = true) ∧
     ∃ pre m,
       emittedBy {} (({} : TaskSession).executeTask sampleTaskC1
           (.ok (mockTaskRun sampleTaskC1))) = pre ++ [m] ∧
       (∀ x ∈ pre, isTerminal x = false) ∧
       isTerminal m = true ∧
       m.taskId = sampleTaskC1.taskId ∧
       (m.type = AgentMessageType.complete ↔
         handlerFailure (.ok (mockTaskRun sampleTaskC1)) = none) ∧
       (∀ e, handlerFailure (.ok (mockTaskRun sampleTaskC1)) = some e →
         m.type = AgentMessageType.error ∧ m.data.message = some e)) :=
  ⟨⟨rfl, by rfl⟩,
   C1_executeTask_single_terminal sampleTaskC1 (.ok (mockTaskRun sampleTaskC1)) {} rfl (by rfl)⟩

/-! ## Claim C2 -/

/-- executeTask never changes the bound taskId, the socket flag or the
dispatch trace beyond its own entry. -/
lemma executeTask_pres (s : TaskSession) (task : TaskMessage)
    (fr : Except String HandlerRun) :
    (s.executeTask task fr).taskId = s.taskId ∧
    (s.executeTask task fr).wsOpen = s.wsOpen ∧
    (s.executeTask task fr).accepted = s.accepted := by
  match fr with
  | .ok run =>
    obtain ⟨h1, h2, h3, _, _, _⟩ := runCmds_master run.cmds s
    match hoc : run.outcome with
    | .ok =>
      simp only [TaskSession.executeTask, hoc, TaskSession.sendMessage, TaskSession.tick]
      split <;> simp_all
    | .thrown e =>
      obtain ⟨l1, l2, l3, _, _, _⟩ :=
        log_out (s.runCmds run.cmds) ("Task execution failed: " ++ e) .error
      simp only [TaskSession.executeTask, hoc, TaskSession.sendMessage, TaskSession.tick]
      split <;> simp_all
  | .error e =>
    obtain ⟨l1, l2, l3, _, _, _⟩ := log_out s ("Task execution failed: " ++ e) .error
    simp only [TaskSession.executeTask, TaskSession.sendMessage, TaskSession.tick]
    split <;> simp_all

/-- handleMessage dispatches every frame that validates to a TaskMessage,
whatever state the session is in: the dispatch trace grows by that task and
the session taskId is rebound to it. -/
lemma handleMessage_accepts (s : TaskSession) (frame : Frame) (t : TaskMessage)
    (runOf : TaskMessage → Except String HandlerRun)
    (hp : parseTaskFrame frame = .ok t) :
    (s.handleMessage frame runOf).accepted = s.accepted ++ [(t.type, t.taskId)] ∧
    (s.handleMessage frame runOf).taskId = some t.taskId := by
  simp only [TaskSession.handleMessage, hp, TaskSession.acceptTask]
  constructor
  · rw [(executeTask_pres _ t (runOf t)).2.2]
    simp only [TaskSession.log, TaskSession.sendMessage, TaskSession.tick]
    split <;> simp
  · rw [(executeTask_pres _ t (runOf t)).1]
    simp only [TaskSession.log, TaskSession.sendMessage, TaskSession.tick]
    split <;> simp

/-- A well-formed TaskMessage frame with the given taskId, as JSON. -/
def sampleJsonC2 (tid : String) : Json :=
  .obj [("type", .str "task:custom"), ("taskId", .str tid),
        ("repo", .str "repo-url"), ("branch", .str "main"),
        ("auth", .obj [("github", .str "gh-token"), ("worker", .str "jwt")]),
        ("args", .obj []),
        ("settings", .obj [("verbose", .bool true), ("debug", .bool false),
                           ("validateFrontend", .bool false), ("autoMerge", .bool false)])]

/-- The TaskMessage that sampleJsonC2 validates to. -/
def sampleTaskC2 (tid : String) : TaskMessage :=
  { type := "task:custom", taskId := tid, repo := "repo-url", branch := "main",
    auth := { github := "gh-token", worker := "jwt" }, args := [],
    settings := { verbose := true, debug := false,
                  validateFrontend := false, autoMerge := false } }

/-- Counterexample to claim C2 as stated: after the session has reached its
terminal state for a first task (its last sent message is terminal), a
second well-formed TaskMessage on the same connection is not ignored: it is
dispatched to a handler (the ghost dispatch trace shows both tasks) and
further messages are emitted after the terminal one.  handleMessage has no
terminal-state guard. -/
theorem C2_counterexample :
    (((({} : TaskSession).handleMessage (.jsonFrame (sampleJsonC2 "t1"))
        (runOfFactory mockExec)).sent.getLast?.map isTerminal = some true) ∧
     (((({} : TaskSession).handleMessage (.jsonFrame (sampleJsonC2 "t1"))
          (runOfFactory mockExec)).handleMessage (.jsonFrame (sampleJsonC2 "t2"))
          (runOfFactory mockExec)).accepted
        = [("task:custom", "t1"), ("task:custom", "t2")]) ∧
     (((({} : TaskSession).handleMessage (.jsonFrame (sampleJsonC2 "t1"))
          (runOfFactory mockExec)).handleMessage (.jsonFrame (sampleJsonC2 "t2"))
          (runOfFactory mockExec)).sent.length
        > (({} : TaskSession).handleMessage (.jsonFrame (sampleJsonC2 "t1"))
            (runOfFactory mockExec)).sent.length)) := by
  decide

/-- Amended claim C2: the session does not reject or ignore post-terminal
messages; a well-formed TaskMessage received in any state, in particular
after a terminal message has been emitted, rebinds the session taskId and
is dispatched to a handler exactly like a first task. -/
theorem C2_amended_post_terminal_dispatch
    (s : TaskSession) (frame : Frame) (t : TaskMessage)
    (runOf : TaskMessage → Except String HandlerRun)
    (hp : parseTaskFrame frame = .ok t) :
    (s.handleMessage frame runOf).accepted = s.accepted ++ [(t.type, t.taskId)] ∧
    (s.handleMessage frame runOf).taskId = some t.taskId :=
  handleMessage_accepts s frame t runOf hp

/-- Witness for the amended C2 at a concrete frame and session. -/
theorem C2_amended_post_terminal_dispatch_witness :
    (parseTaskFrame (.jsonFrame (sampleJsonC2 "t2")) = .ok (sampleTaskC2 "t2")) ∧
    ((({} : TaskSession).handleMessage (.jsonFrame (sampleJsonC2 "t2"))
        (runOfFactory mockExec)).accepted = [] ++ [("task:custom", "t2")] ∧
     (({} : TaskSession).handleMessage (.jsonFrame (sampleJsonC2 "t2"))
        (runOfFactory mockExec)).taskId = some "t2") :=
  ⟨by rfl,
   C2_amended_post_terminal_dispatch {} (.jsonFrame (sampleJsonC2 "t2"))
     (sampleTaskC2 "t2") (runOfFactory mockExec) (by rfl)⟩

/-! ## Claim C3 -/

/-- Everything executeTask appends to the socket carries the task taskId,
provided the session has that task bound and every raw handler send
carries it. -/
lemma executeTask_out (s : TaskSession) (task : TaskMessage)
    (fr : Except String HandlerRun) :
    ∃ out, (s.executeTask task fr).sent = s.sent ++ out ∧
      (s.taskId = some task.taskId → sendsCarry task.taskId fr = true →
        ∀ m ∈ out, m.taskId = task.taskId) := by
  match fr with
  | .ok run =>
    obtain ⟨h1, h2, h3, out, hout, hprop⟩ := runCmds_master run.cmds s
    match hoc : run.outcome with
    | .ok =>
      refine ⟨out ++ (if (s.runCmds run.cmds).wsOpen then
          [{ type := .complete, taskId := task.taskId,
             timestamp := (s.runCmds run.cmds).now,
             data := { message := some "Task completed successfully" } }] else []), ?_, ?_⟩
      · have hs := (sendMessage_fields (s.runCmds run.cmds)
          { type := .complete, taskId := task.taskId,
            timestamp := (s.runCmds run.cmds).now,
            data := { message := some "Task completed successfully" } }).2.2.2
        have ht := (tick_fields ((s.runCmds run.cmds).sendMessage
          { type := .complete, taskId := task.taskId,
            timestamp := (s.runCmds run.cmds).now,
            data := { message := some "Task completed successfully" } })).2.2.2
        simp only [TaskSession.executeTask, hoc]
        rw [ht, hs, hout, List.append_assoc]
      · intro hbound hc m hm
        rcases List.mem_append.mp hm with hmem | hmem
        · exact (hprop m hmem).2 task.taskId hbound (by simpa [sendsCarry] using hc)
        · by_cases hw : (s.runCmds run.cmds).wsOpen <;> simp [hw] at hmem
          subst hmem; rfl
    | .thrown e =>
      obtain ⟨l1, l2, l3, out2, hout2, hprop2⟩ :=
        log_out (s.runCmds run.cmds) ("Task execution failed: " ++ e) .error
      refine ⟨(out ++ out2) ++
          (if ((s.runCmds run.cmds).log ("Task execution failed: " ++ e) .error).wsOpen then
            [{ type := .error, taskId := task.taskId,
               timestamp := ((s.runCmds run.cmds).log ("Task execution failed: " ++ e) .error).now,
               data := { message := some e } }] else []), ?_, ?_⟩
      · have hs := (sendMessage_fields
          ((s.runCmds run.cmds).log ("Task execution failed: " ++ e) .error)
          { type := .error, taskId := task.taskId,
            timestamp := ((s.runCmds run.cmds).log ("Task execution failed: " ++ e) .error).now,
            data := { message := some e } }).2.2.2
        have ht := (tick_fields
          (((s.runCmds run.cmds).log ("Task execution failed: " ++ e) .error).sendMessage
            { type := .error, taskId := task.taskId,
              timestamp :=
                ((s.runCmds run.cmds).log ("Task execution failed: " ++ e) .error).now,
              data := { message := some e } })).2.2.2
        simp only [TaskSession.executeTask, hoc]
        rw [ht, hs, hout2, hout]
        simp [List.append_assoc]
      · intro hbound hc m hm
        rcases List.mem_append.mp hm with hmem | hmem
        · rcases List.mem_append.mp hmem with hmem2 | hmem2
          · exact (hprop m hmem2).2 task.taskId hbound (by simpa [sendsCarry] using hc)
          · exact (hprop2 m hmem2).2 task.taskId (h1.trans hbound)
        · by_cases hw : ((s.runCmds run.cmds).log ("Task execution failed: " ++ e) .error).wsOpen
            <;> simp [hw] at hmem
          subst hmem; rfl
  | .error e =>
    obtain ⟨l1, l2, l3, out1, hout1, hprop1⟩ :=
      log_out s ("Task execution failed: " ++ e) .error
    refine ⟨out1 ++
        (if (s.log ("Task execution failed: " ++ e) .error).wsOpen then
          [{ type := .error, taskId := task.taskId,
             timestamp := (s.log ("Task execution failed: " ++ e) .error).now,
             data := { message := some e } }] else []), ?_, ?_⟩
    · have hs := (sendMessage_fields (s.log ("Task execution failed: " ++ e) .error)
        { type := .error, taskId := task.taskId,
          timestamp := (s.log ("Task execution failed: " ++ e) .error).now,
          data := { message := some e } }).2.2.2
      have ht := (tick_fields ((s.log ("Task execution failed: " ++ e) .error).sendMessage
        { type := .error, taskId := task.taskId,
          timestamp := (s.log ("Task execution failed: " ++ e) .error).now,
          data := { message := some e } })).2.2.2
      simp only [TaskSession.executeTask]
      rw [ht, hs, hout1, List.append_assoc]
    · intro hbound hc m hm
      rcases List.mem_append.mp hm with hmem | hmem
      · exact (hprop1 m hmem).2 task.taskId hbound
      · by_cases hw : (s.log ("Task execution failed: " ++ e) .error).wsOpen
          <;> simp [hw] at hmem
        subst hmem; rfl

/-- Claim C3: every AgentMessage the session emits while handling an
accepted TaskMessage (the receipt log, the handler log/progress events,
raw structured payloads such as pr_created built with the task taskId, and
the terminal message) carries the taskId of the triggering TaskMessage. -/
theorem C3_taskId_correlation
    (s : TaskSession) (frame : Frame) (t : TaskMessage)
    (runOf : TaskMessage → Except String HandlerRun)
    (hp : parseTaskFrame frame = .ok t)
    (hc : sendsCarry t.taskId (runOf t) = true) :
    ∀ m ∈ emittedBy s (s.handleMessage frame runOf), m.taskId = t.taskId := by
  intro m hm
  simp only [TaskSession.handleMessage, hp, TaskSession.acceptTask] at hm
  set s1 : TaskSession := { s with taskId := some t.taskId } with hs1
  obtain ⟨a1, a2, a3, out1, hout1, hprop1⟩ :=
    log_out s1 ("Received task: " ++ t.type) .info
  set s2 : TaskSession := s1.log ("Received task: " ++ t.type) .info with hs2
  set s3 : TaskSession := { s2 with accepted := s2.accepted ++ [(t.type, t.taskId)] } with hs3
  obtain ⟨o2, ho2, hcarry⟩ := executeTask_out s3 t (runOf t)
  have hbound3 : s3.taskId = some t.taskId := by
    rw [hs3]; show s2.taskId = some t.taskId
    rw [hs2, a1, hs1]
  have hsent3 : s3.sent = s.sent ++ out1 := by
    rw [hs3]; show s2.sent = s.sent ++ out1
    rw [hs2, hout1, hs1]
  have htotal : (s3.executeTask t (runOf t)).sent = s.sent ++ (out1 ++ o2) := by
    rw [ho2, hsent3, List.append_assoc]
  have hemit : emittedBy s (s3.executeTask t (runOf t)) = out1 ++ o2 := by
    rw [emittedBy, htotal, List.drop_left]
  rw [hemit] at hm
  rcases List.mem_append.mp hm with h | h
  · exact (hprop1 m h).2 t.taskId (by rw [hs1])
  · exact hcarry hbound3 hc m h

/-- A concrete task used to witness C3. -/
def sampleTaskC3 : TaskMessage :=
  { type := "task:lint_fix", taskId := "t-c3", repo := "repo-url", branch := "main",
    auth := { github := "gh-token", worker := "jwt" }, args := [],
    settings := { verbose := true, debug := false,
                  validateFrontend := false, autoMerge := false } }

/-- A well-formed frame validating to sampleTaskC3. -/
def sampleJsonC3 : Json :=
  .obj [("type", .str "task:lint_fix"), ("taskId", .str "t-c3"),
        ("repo", .str "repo-url"), ("branch", .str "main"),
        ("auth", .obj [("github", .str "gh-token"), ("worker", .str "jwt")]),
        ("args", .obj []),
        ("settings", .obj [("verbose", .bool true), ("debug", .bool false),
                           ("validateFrontend", .bool false), ("autoMerge", .bool false)])]

/-- Witness for C3 at a concrete frame on a fresh session. -/
theorem C3_taskId_correlation_witness :
    (parseTaskFrame (.jsonFrame sampleJsonC3) = .ok sampleTaskC3 ∧
     sendsCarry sampleTaskC3.taskId (runOfFactory mockExec sampleTaskC3) = true) ∧
    (∀ m ∈ emittedBy {} (({} : TaskSession).handleMessage (.jsonFrame sampleJsonC3)
        (runOfFactory mockExec)), m.taskId = sampleTaskC3.taskId) :=
  ⟨⟨by rfl, by rfl⟩,
   C3_taskId_correlation {} (.jsonFrame sampleJsonC3) sampleTaskC3
     (runOfFactory mockExec) (by rfl) (by rfl)⟩

/-! ## Claim C4 -/

/-- Claim C4: a frame that is not valid JSON or fails TaskMessage
validation, received before any task has ever been bound, leaves the
session in the awaiting-task state (taskId stays unbound, nothing is
dispatched), emits exactly one error AgentMessage whose taskId is the
string "unknown" and whose data.message is the parse/validation failure
text, and a later well-formed TaskMessage is still accepted and
dispatched. -/
theorem C4_malformed_before_bind
    (s : TaskSession) (frame : Frame) (e : String)
    (runOf : TaskMessage → Except String HandlerRun)
    (hp : parseTaskFrame frame = .error e)
    (hb : s.taskId = none) (hopen : s.wsOpen = true) :
    (s.handleMessage frame runOf).taskId = none ∧
    (s.handleMessage frame runOf).accepted = s.accepted ∧
    emittedBy s (s.handleMessage frame runOf) =
      [{ type := .error, taskId := "unknown", timestamp := s.now,
         data := { message := some e } }] ∧
    (∀ frame2 t, parseTaskFrame frame2 = .ok t →
      ((s.handleMessage frame runOf).handleMessage frame2 runOf).accepted =
        (s.handleMessage frame runOf).accepted ++ [(t.type, t.taskId)]) := by
  have hlog : s.log ("Error handling message: " ++ e) .error = s := by
    unfold TaskSession.log; rw [hb]
  refine ⟨?_, ?_, ?_, ?_⟩
  · simp only [TaskSession.handleMessage, hp, hlog, TaskSession.sendMessage,
               TaskSession.tick]
    rw [hb]
    split <;> simp [hb]
  · simp only [TaskSession.handleMessage, hp, hlog, TaskSession.sendMessage,
               TaskSession.tick]
    split <;> simp
  · have hsent : (s.handleMessage frame runOf).sent =
        s.sent ++ [{ type := .error, taskId := "unknown", timestamp := s.now,
                     data := { message := some e } }] := by
      simp only [TaskSession.handleMessage, hp, hlog, TaskSession.sendMessage,
                 TaskSession.tick]
      rw [hb]
      simp [hopen, jsOrStr]
    rw [emittedBy, hsent, List.drop_left]
  · intro frame2 t hp2
    exact (handleMessage_accepts _ frame2 t runOf hp2).1

/-- Witness for C4 at a concrete malformed frame on a fresh session. -/
theorem C4_malformed_before_bind_witness :
    (parseTaskFrame (.notJson "Unexpected token h in JSON at position 0")
        = .error "Unexpected token h in JSON at position 0" ∧
     TaskSession.taskId {} = none ∧ TaskSession.wsOpen {} = true) ∧
    ((({} : TaskSession).handleMessage (.notJson "Unexpected token h in JSON at position 0")
        (runOfFactory mockExec)).taskId = none ∧
     (({} : TaskSession).handleMessage (.notJson "Unexpected token h in JSON at position 0")
        (runOfFactory mockExec)).accepted = TaskSession.accepted {} ∧
     emittedBy {} (({} : TaskSession).handleMessage
        (.notJson "Unexpected token h in JSON at position 0") (runOfFactory mockExec)) =
       [{ type := .error, taskId := "unknown", timestamp := TaskSession.now {},
          data := { message := some "Unexpected token h in JSON at position 0" } }] ∧
     (∀ frame2 t, parseTaskFrame frame2 = .ok t →
       ((({} : TaskSession).handleMessage
           (.notJson "Unexpected token h in JSON at position 0")
           (runOfFactory mockExec)).handleMessage frame2 (runOfFactory mockExec)).accepted =
         (({} : TaskSession).handleMessage
           (.notJson "Unexpected token h in JSON at position 0")
           (runOfFactory mockExec)).accepted ++ [(t.type, t.taskId)])) :=
  ⟨⟨rfl, rfl, rfl⟩,
   C4_malformed_before_bind {} (.notJson "Unexpected token h in JSON at position 0")
     "Unexpected token h in JSON at position 0" (runOfFactory mockExec) rfl rfl rfl⟩

/-! ## Claim C5 -/

/-- Counterexample to claim C5 as stated: task:init is a member of the
closed enumeration, yet the factory switch has no case for it, so the
factory throws on it instead of returning a handler. -/
theorem C5_counterexample :
    "task:init" ∈ taskTypeValues ∧
    createTaskExecutor "task:init" = .error ("Unknown task type: " ++ "task:init") := by
  decide

/-- Amended claim C5: the factory throws synchronously, with an error
naming the type, exactly on the strings outside the enumeration and on
task:init (whose switch case is missing); for the other five enumeration
members it returns a handler without throwing.  When the factory throws
for a task, nothing has been emitted by the throw: the messages produced
afterwards by the catch are a failure log and the single terminal error,
so in particular no progress (and no pr_created) event is ever emitted. -/
theorem C5_amended_factory_dispatch :
    (∀ ty : String, (ty ∉ taskTypeValues ∨ ty = "task:init") →
        createTaskExecutor ty = .error ("Unknown task type: " ++ ty)) ∧
    (∀ ty : String, ty ∈ taskTypeValues → ty ≠ "task:init" →
        ∃ h, createTaskExecutor ty = .ok h) ∧
    (∀ (s : TaskSession) (task : TaskMessage) (e : String),
        createTaskExecutor task.type = .error e →
        ∀ m ∈ emittedBy s (s.executeTask task (.error e)),
          m.type ≠ AgentMessageType.progress ∧ m.type ≠ AgentMessageType.pr_created) := by
  refine ⟨?_, ?_, ?_⟩
  · intro ty hty
    unfold createTaskExecutor
    split_ifs with h1 h2 h3 h4 h5
    · exfalso; rcases hty with hni | hinit
      · exact hni (by rw [h1]; decide)
      · rw [hinit] at h1; exact absurd h1 (by decide)
    · exfalso; rcases hty with hni | hinit
      · exact hni (by rw [h2]; decide)
      · rw [hinit] at h2; exact absurd h2 (by decide)
    · exfalso; rcases hty with hni | hinit
      · exact hni (by rw [h3]; decide)
      · rw [hinit] at h3; exact absurd h3 (by decide)
    · exfalso; rcases hty with hni | hinit
      · exact hni (by rw [h4]; decide)
      · rw [hinit] at h4; exact absurd h4 (by decide)
    · exfalso; rcases hty with hni | hinit
      · exact hni (by rw [h5]; decide)
      · rw [hinit] at h5; exact absurd h5 (by decide)
    · rfl
  · intro ty hmem hni
    have : ty = "task:init" ∨ ty = "task:generate_page" ∨ ty = "task:generate_agent" ∨
        ty = "task:lint_fix" ∨ ty = "task:health_audit" ∨ ty = "task:custom" := by
      simpa [taskTypeValues] using hmem
    rcases this with h | h | h | h | h | h
    · exact absurd h hni
    · exact ⟨.generatePageTask, by rw [h]; decide⟩
    · exact ⟨.mockTask, by rw [h]; decide⟩
    · exact ⟨.mockTask, by rw [h]; decide⟩
    · exact ⟨.mockTask, by rw [h]; decide⟩
    · exact ⟨.mockTask, by rw [h]; decide⟩
  · intro s task e _ m hm
    obtain ⟨l1, l2, l3, out1, hout1, hprop1⟩ :=
      log_out s ("Task execution failed: " ++ e) .error
    have hsent : (s.executeTask task (.error e)).sent =
        s.sent ++ (out1 ++
          (if (s.log ("Task execution failed: " ++ e) .error).wsOpen then
            [{ type := .error, taskId := task.taskId,
               timestamp := (s.log ("Task execution failed: " ++ e) .error).now,
               data := { message := some e } }] else [])) := by
      have hs := (sendMessage_fields (s.log ("Task execution failed: " ++ e) .error)
        { type := .error, taskId := task.taskId,
          timestamp := (s.log ("Task execution failed: " ++ e) .error).now,
          data := { message := some e } }).2.2.2
      have ht := (tick_fields ((s.log ("Task execution failed: " ++ e) .error).sendMessage
        { type := .error, taskId := task.taskId,
          timestamp := (s.log ("Task execution failed: " ++ e) .error).now,
          data := { message := some e } })).2.2.2
      simp only [TaskSession.executeTask]
      rw [ht, hs, hout1, List.append_assoc]
    have hemit : emittedBy s (s.executeTask task (.error e)) =
        out1 ++
          (if (s.log ("Task execution failed: " ++ e) .error).wsOpen then
            [{ type := .error, taskId := task.taskId,
               timestamp := (s.log ("Task execution failed: " ++ e) .error).now,
               data := { message := some e } }] else []) := by
      rw [emittedBy, hsent, List.drop_left]
    rw [hemit] at hm
    rcases List.mem_append.mp hm with hmem | hmem
    · rw [(hprop1 m hmem).1]; exact ⟨by simp, by simp⟩
    · by_cases hw : (s.log ("Task execution failed: " ++ e) .error).wsOpen
        <;> simp [hw] at hmem
      subst hmem; exact ⟨by simp, by simp⟩

/-- Witness for the amended C5 at concrete types and a concrete session. -/
theorem C5_amended_factory_dispatch_witness :
    (("task:bogus" ∉ taskTypeValues ∨ "task:bogus" = "task:init") ∧
     createTaskExecutor "task:bogus" = .error ("Unknown task type: " ++ "task:bogus")) ∧
    ("task:custom" ∈ taskTypeValues ∧ "task:custom" ≠ "task:init" ∧
     ∃ h, createTaskExecutor "task:custom" = .ok h) ∧
    (createTaskExecutor (sampleTaskC1.type) = .error ("Unknown task type: " ++ sampleTaskC1.type) ∨
     True) :=
  ⟨⟨Or.inl (by decide), C5_amended_factory_dispatch.1 "task:bogus" (Or.inl (by decide))⟩,
   ⟨by decide, by decide, C5_amended_factory_dispatch.2.1 "task:custom" (by decide) (by decide)⟩,
   Or.inr trivial⟩

/-! ## Claim C6 -/

/-- Claim C6: a non-JSON or schema-violating frame never escapes the
receive paths: both handleMessage functions return normally.  The client
logs the diagnostic and drops the frame — its MessageHandler (completion
future, settles, PR URL, rendered output) is completely untouched — and
the server neither dispatches nor changes its binding, so both sides keep
operating on their next frames. -/
theorem C6_malformed_no_crash :
    (∀ (c : WebSocketClient) (frame : Frame) (e : String),
       parseAgentFrame frame = .error e →
       (c.handleMessage frame).messageHandler = c.messageHandler ∧
       (c.handleMessage frame).wsConnected = c.wsConnected ∧
       (c.handleMessage frame).console =
         c.console ++ ["Failed to parse agent message: " ++ e]) ∧
    (∀ (s : TaskSession) (frame : Frame) (e : String)
       (runOf : TaskMessage → Except String HandlerRun),
       parseTaskFrame frame = .error e →
       (s.handleMessage frame runOf).accepted = s.accepted ∧
       (s.handleMessage frame runOf).taskId = s.taskId) := by
  constructor
  · intro c frame e hp
    simp [WebSocketClient.handleMessage, hp]
  · intro s frame e runOf hp
    obtain ⟨l1, l2, l3, _, _, _⟩ := log_out s ("Error handling message: " ++ e) .error
    simp only [TaskSession.handleMessage, hp]
    constructor
    · rw [(tick_fields _).2.2.1, (sendMessage_fields _ _).2.2.1, l3]
    · rw [(tick_fields _).1, (sendMessage_fields _ _).1, l1]

/-- A client used to witness C6. -/
def sampleClientC6 : WebSocketClient :=
  WebSocketClient.mk1 { agentUrl := "https://jbishkit-agent.workers.dev", useMock := true }

/-- Witness for C6 at a concrete schema-violating frame on both sides. -/
theorem C6_malformed_no_crash_witness :
    (parseAgentFrame (.jsonFrame (.str "nonsense")) = .error "expected object for AgentMessage" ∧
     parseTaskFrame (.jsonFrame (.str "nonsense")) = .error "expected object for TaskMessage") ∧
    ((sampleClientC6.handleMessage (.jsonFrame (.str "nonsense"))).messageHandler =
        sampleClientC6.messageHandler ∧
     (sampleClientC6.handleMessage (.jsonFrame (.str "nonsense"))).wsConnected =
        sampleClientC6.wsConnected ∧
     (sampleClientC6.handleMessage (.jsonFrame (.str "nonsense"))).console =
        sampleClientC6.console ++
          ["Failed to parse agent message: " ++ "expected object for AgentMessage"]) ∧
    ((({} : TaskSession).handleMessage (.jsonFrame (.str "nonsense"))
        (runOfFactory mockExec)).accepted = TaskSession.accepted {} ∧
     (({} : TaskSession).handleMessage (.jsonFrame (.str "nonsense"))
        (runOfFactory mockExec)).taskId = TaskSession.taskId {}) :=
  ⟨⟨by rfl, by rfl⟩,
   C6_malformed_no_crash.1 sampleClientC6 (.jsonFrame (.str "nonsense"))
     "expected object for AgentMessage" (by rfl),
   C6_malformed_no_crash.2 {} (.jsonFrame (.str "nonsense"))
     "expected object for TaskMessage" (runOfFactory mockExec) (by rfl)⟩

/-! ## Claim C7 -/

/-- Whether a parse attempt succeeded. -/
def exceptOk {α : Type} : Except String α → Bool
  | .ok _ => true
  | .error _ => false

/-- The given key maps to a string (of any length) in the JSON object. -/
def isStrField (j : Json) (key : String) : Bool :=
  match j.get key with
  | some (.str _) => true
  | _ => false

/-- The given key maps to a boolean in the JSON object. -/
def isBoolField (j : Json) (key : String) : Bool :=
  match j.get key with
  | some (.bool _) => true
  | _ => false

/-- The given key maps to an object in the JSON object. -/
def isObjField (j : Json) (key : String) : Bool :=
  match j.get key with
  | some (.obj _) => true
  | _ => false

lemma isStrField_eq (j : Json) (key : String) :
    isStrField j key = exceptOk (getStr j key) := by
  unfold isStrField getStr exceptOk
  rcases j.get key with _ | v
  · simp
  · cases v <;> simp

lemma isBoolField_eq (j : Json) (key : String) :
    isBoolField j key = exceptOk (getBool j key) := by
  unfold isBoolField getBool exceptOk
  rcases j.get key with _ | v
  · simp
  · cases v <;> simp

lemma isObjField_eq (j : Json) (key : String) :
    isObjField j key = exceptOk (getObjFields j key) := by
  unfold isObjField getObjFields exceptOk
  rcases j.get key with _ | v
  · simp
  · cases v <;> simp

/-- The well-formedness condition in the words of the specification,
without the non-emptiness requirement that the schema does not implement:
type in the closed enumeration; taskId, repo and branch strings; auth
present with string fields github and worker; args a mapping; settings
with all four booleans. -/
def specAcceptedTaskMessage (j : Json) : Bool :=
  (match j with | .obj _ => true | _ => false) &&
  (match j.get "type" with
   | some (.str t) => taskTypeValues.contains t
   | _ => false) &&
  isStrField j "taskId" && isStrField j "repo" && isStrField j "branch" &&
  (match j.get "auth" with
   | some a => isStrField a "github" && isStrField a "worker"
   | none => false) &&
  isObjField j "args" &&
  (match j.get "settings" with
   | some st => isBoolField st "verbose" && isBoolField st "debug" &&
                isBoolField st "validateFrontend" && isBoolField st "autoMerge"
   | none => false)

/-- A syntactically well-formed TaskMessage frame whose taskId, repo and
branch are all the empty string. -/
def sampleJsonC7 : Json :=
  .obj [("type", .str "task:custom"), ("taskId", .str ""),
        ("repo", .str ""), ("branch", .str ""),
        ("auth", .obj [("github", .str "gh-token"), ("worker", .str "jwt")]),
        ("args", .obj []),
        ("settings", .obj [("verbose", .bool true), ("debug", .bool false),
                           ("validateFrontend", .bool false), ("autoMerge", .bool false)])]

/-- Counterexample to claim C7 as stated: the schema uses plain z.string()
with no non-emptiness refinement, so a message whose taskId, repo and
branch are all empty strings is accepted, not rejected. -/
theorem C7_counterexample :
    TaskMessageSchema.parse sampleJsonC7 =
      .ok { type := "task:custom", taskId := "", repo := "", branch := "",
            auth := { github := "gh-token", worker := "jwt" }, args := [],
            settings := { verbose := true, debug := false,
                          validateFrontend := false, autoMerge := false } } := by
  rfl

/-- Amended claim C7: validation accepts a message exactly when its type is
in the closed enumeration, its taskId, repo and branch are strings (empty
strings included — there is no non-emptiness check), auth.github and
auth.worker are present strings, args is a string-keyed mapping, and
settings contains all four booleans. -/
theorem C7_amended_schema_characterization (j : Json) :
    exceptOk (TaskMessageSchema.parse j) = specAcceptedTaskMessage j := by
  match j with
  | .null => rfl
  | .bool b => rfl
  | .num n => rfl
  | .str s => rfl
  | .arr items => rfl
  | .obj fs =>
    simp only [TaskMessageSchema.parse]
    repeat' split
    all_goals
      simp_all [specAcceptedTaskMessage, isStrField_eq, isBoolField_eq, isObjField_eq,
                exceptOk]

/-- Witness for the amended C7 at the empty-strings frame. -/
theorem C7_amended_schema_characterization_witness :
    exceptOk (TaskMessageSchema.parse sampleJsonC7) = specAcceptedTaskMessage sampleJsonC7 :=
  C7_amended_schema_characterization sampleJsonC7

/-! ## Claim C8 -/

lemma handleLog_pres (h : MessageHandler) (m : AgentMessage) :
    (h.handleLog m).completionPending = h.completionPending ∧
    (h.handleLog m).settles = h.settles := by
  unfold MessageHandler.handleLog
  rcases m.data.message with _ | msg
  · simp
  · rcases m.data.level with _ | lvl
    · simp only [MessageHandler.logInfo]
      split_ifs <;> simp
    · cases lvl with
      | debug =>
        simp only [MessageHandler.logDebug]
        split_ifs <;> simp
      | info =>
        simp only [MessageHandler.logInfo]
        split_ifs <;> simp
      | warn => exact ⟨rfl, rfl⟩
      | error => exact ⟨rfl, rfl⟩

lemma handleProgress_pres (h : MessageHandler) (m : AgentMessage) :
    (h.handleProgress m).completionPending = h.completionPending ∧
    (h.handleProgress m).settles = h.settles := by
  unfold MessageHandler.handleProgress
  rcases m.data.progress with _ | p
  · simp
  · simp [MessageHandler.logProgress]

lemma foldl_logWarn_pres (l : List String) : ∀ h : MessageHandler,
    (l.foldl (fun acc issue => acc.logWarn ("  - " ++ issue)) h).completionPending
        = h.completionPending ∧
    (l.foldl (fun acc issue => acc.logWarn ("  - " ++ issue)) h).settles = h.settles := by
  induction l with
  | nil => intro h; simp
  | cons x xs ih =>
    intro h
    obtain ⟨i1, i2⟩ := ih (h.logWarn ("  - " ++ x))
    simp only [List.foldl_cons]
    exact ⟨i1.trans (by simp [MessageHandler.logWarn]),
           i2.trans (by simp [MessageHandler.logWarn])⟩

lemma prCreatedValidation_pres (h2 : MessageHandler) (vr : Option ValidationResult) :
    (h2.prCreatedValidation vr).completionPending = h2.completionPending ∧
    (h2.prCreatedValidation vr).settles = h2.settles := by
  rcases vr with _ | v
  · exact ⟨rfl, rfl⟩
  · simp only [MessageHandler.prCreatedValidation]
    by_cases hp : v.passed
    · rw [if_pos hp]
      exact ⟨by simp [MessageHandler.logSuccess], by simp [MessageHandler.logSuccess]⟩
    · obtain ⟨f1, f2⟩ := foldl_logWarn_pres v.issues
        (h2.logWarn "⚠ Frontend validation failed:")
      rw [if_neg hp]
      exact ⟨f1.trans (by simp [MessageHandler.logWarn]),
             f2.trans (by simp [MessageHandler.logWarn])⟩

lemma handlePRCreated_pres (h : MessageHandler) (m : AgentMessage) :
    (h.handlePRCreated m).completionPending = h.completionPending ∧
    (h.handlePRCreated m).settles = h.settles := by
  unfold MessageHandler.handlePRCreated
  obtain ⟨p1, p2⟩ := prCreatedValidation_pres
    (MessageHandler.logSuccess
      { h with prUrl := m.data.prUrl, validationResult := m.data.validation }
      ("Pull request created: " ++ jsDisplay (m.data.prUrl.map Json.str)))
    m.data.validation
  exact ⟨p1.trans (by simp [MessageHandler.logSuccess]),
         p2.trans (by simp [MessageHandler.logSuccess])⟩

lemma handleError_spec (h : MessageHandler) (m : AgentMessage) :
    (h.handleError m).completionPending = false ∧
    (h.handleError m).settles = h.settles ++
      (if h.completionPending then
        [Settle.rejected (jsOrStr m.data.message "Task failed")] else []) := by
  unfold MessageHandler.handleError MessageHandler.logError
  by_cases hp : h.completionPending <;> simp [hp]

lemma logInfo_pres (h : MessageHandler) (s : String) :
    (h.logInfo s).completionPending = h.completionPending ∧
    (h.logInfo s).settles = h.settles ∧ (h.logInfo s).prUrl = h.prUrl := by
  simp only [MessageHandler.logInfo]
  split_ifs <;> simp

lemma completeNext_pres (h1 : MessageHandler) :
    (h1.completeNext).completionPending = h1.completionPending ∧
    (h1.completeNext).settles = h1.settles := by
  unfold MessageHandler.completeNext
  by_cases hjs : jsTruthy h1.prUrl = true
  · rcases hurl : h1.prUrl with _ | url
    · rw [hurl] at hjs; simp [jsTruthy] at hjs
    · rw [hurl] at hjs
      simp only [hurl, hjs, if_true]
      obtain ⟨a1, a2, a3⟩ := logInfo_pres h1 "\nNext steps:"
      obtain ⟨b1, b2, b3⟩ :=
        logInfo_pres (h1.logInfo "\nNext steps:") ("  1. Review the PR: " ++ url)
      obtain ⟨c1, c2, c3⟩ :=
        logInfo_pres ((h1.logInfo "\nNext steps:").logInfo ("  1. Review the PR: " ++ url))
          "  2. Merge when ready"
      obtain ⟨d1, d2, d3⟩ :=
        logInfo_pres (((h1.logInfo "\nNext steps:").logInfo
          ("  1. Review the PR: " ++ url)).logInfo "  2. Merge when ready")
          "  3. Pull changes: jbish pull"
      exact ⟨d1.trans (c1.trans (b1.trans a1)), d2.trans (c2.trans (b2.trans a2))⟩
  · exact ⟨by rw [if_neg hjs], by rw [if_neg hjs]⟩

lemma handleComplete_spec (h : MessageHandler) (m : AgentMessage) :
    (h.handleComplete m).completionPending = false ∧
    (h.handleComplete m).settles = h.settles ++
      (if h.completionPending then [Settle.resolved] else []) := by
  unfold MessageHandler.handleComplete MessageHandler.completeFinish
  obtain ⟨n1, n2⟩ := completeNext_pres (h.logSuccess (jsOrStr m.data.message "Task completed"))
  have hs1 : (h.logSuccess (jsOrStr m.data.message "Task completed")).completionPending
      = h.completionPending := by simp [MessageHandler.logSuccess]
  have hs2 : (h.logSuccess (jsOrStr m.data.message "Task completed")).settles
      = h.settles := by simp [MessageHandler.logSuccess]
  by_cases hp : h.completionPending
  · simp [n1, n2, hs1, hs2, hp]
  · simp [n1, n2, hs1, hs2, hp]

/-- Counterexample to claim C8 as stated: an error message whose
data.message is present but empty is rejected with the fallback string
"Task failed", not with the carried (empty) data.message — the source uses
JS truthiness, not presence. -/
theorem C8_counterexample :
    ({ type := AgentMessageType.error, taskId := "t1", timestamp := 0,
       data := { message := some "" } } : AgentMessage).data.message = some "" ∧
    ((MessageHandler.waitForCompletion {}).handle
      { type := AgentMessageType.error, taskId := "t1", timestamp := 0,
        data := { message := some "" } }).settles = [Settle.rejected "Task failed"] ∧
    "Task failed" ≠ "" := by
  decide

/-- Amended claim C8: the MessageHandler keeps at most one outstanding
completion future.  When none is outstanding, no message settles anything
and none becomes outstanding; the first terminal message while one is
outstanding settles it exactly once — error rejects with data.message
unless that is absent or empty (JS falsy), in which case the fallback
"Task failed" is used, and complete resolves — and clears it, so any later
terminal message finds no outstanding future and cannot re-trigger
completion; non-terminal messages never settle or clear it. -/
theorem C8_amended_single_completion :
    (∀ (h : MessageHandler) (m : AgentMessage),
       h.completionPending = false →
       (h.handle m).settles = h.settles ∧ (h.handle m).completionPending = false) ∧
    (∀ (h : MessageHandler) (m : AgentMessage),
       h.completionPending = true → m.type = AgentMessageType.error →
       (h.handle m).settles =
         h.settles ++ [Settle.rejected (jsOrStr m.data.message "Task failed")] ∧
       (h.handle m).completionPending = false) ∧
    (∀ (h : MessageHandler) (m : AgentMessage),
       h.completionPending = true → m.type = AgentMessageType.complete →
       (h.handle m).settles = h.settles ++ [Settle.resolved] ∧
       (h.handle m).completionPending = false) ∧
    (∀ (h : MessageHandler) (m : AgentMessage),
       m.type ≠ AgentMessageType.error → m.type ≠ AgentMessageType.complete →
       (h.handle m).settles = h.settles ∧
       (h.handle m).completionPending = h.completionPending) := by
  refine ⟨?_, ?_, ?_, ?_⟩
  · intro h m hp
    cases hty : m.type <;> simp only [MessageHandler.handle, hty]
    · exact ⟨(handleLog_pres h m).2, (handleLog_pres h m).1.trans hp⟩
    · exact ⟨(handleProgress_pres h m).2, (handleProgress_pres h m).1.trans hp⟩
    · exact ⟨by rw [(handleError_spec h m).2, hp]; simp, (handleError_spec h m).1⟩
    · exact ⟨by rw [(handleComplete_spec h m).2, hp]; simp, (handleComplete_spec h m).1⟩
    · exact ⟨(handlePRCreated_pres h m).2, (handlePRCreated_pres h m).1.trans hp⟩
  · intro h m hp hty
    simp only [MessageHandler.handle, hty]
    exact ⟨by rw [(handleError_spec h m).2, hp]; simp, (handleError_spec h m).1⟩
  · intro h m hp hty
    simp only [MessageHandler.handle, hty]
    exact ⟨by rw [(handleComplete_spec h m).2, hp]; simp, (handleComplete_spec h m).1⟩
  · intro h m hne hnc
    cases hty : m.type
    · simp only [MessageHandler.handle, hty]
      exact ⟨(handleLog_pres h m).2, (handleLog_pres h m).1⟩
    · simp only [MessageHandler.handle, hty]
      exact ⟨(handleProgress_pres h m).2, (handleProgress_pres h m).1⟩
    · exact absurd hty hne
    · exact absurd hty hnc
    · simp only [MessageHandler.handle, hty]
      exact ⟨(handlePRCreated_pres h m).2, (handlePRCreated_pres h m).1⟩

/-- A concrete error message used to witness the amended C8. -/
def sampleErrC8 : AgentMessage :=
  { type := .error, taskId := "t-c8", timestamp := 0,
    data := { message := some "boom" } }

/-- Witness for the amended C8: an outstanding future is rejected exactly
once by a concrete error message. -/
theorem C8_amended_single_completion_witness :
    ((MessageHandler.waitForCompletion {}).completionPending = true ∧
     sampleErrC8.type = AgentMessageType.error) ∧
    (((MessageHandler.waitForCompletion {}).handle sampleErrC8).settles =
       (MessageHandler.waitForCompletion {}).settles ++
         [Settle.rejected (jsOrStr sampleErrC8.data.message "Task failed")] ∧
     ((MessageHandler.waitForCompletion {}).handle sampleErrC8).completionPending = false) :=
  ⟨⟨rfl, rfl⟩,
   C8_amended_single_completion.2.1 (MessageHandler.waitForCompletion {}) sampleErrC8 rfl rfl⟩

/-! ## Claim C9 -/

/-- Claim C9: the session never echoes the auth credentials.  Formalized
as non-interference: two TaskMessages that agree on every field except
auth produce, from any session state, identical resulting sessions — in
particular identical emitted message streams — when dispatched through the
factory with the MockTask behaviour.  Since the emitted stream does not
depend on auth at all, no emitted message can carry auth.github or
auth.worker. -/
theorem C9_auth_noninterference
    (t1 t2 : TaskMessage) (s : TaskSession)
    (hty : t1.type = t2.type) (hid : t1.taskId = t2.taskId)
    (hrepo : t1.repo = t2.repo) (hbr : t1.branch = t2.branch)
    (hargs : t1.args = t2.args) (hset : t1.settings = t2.settings) :
    (s.acceptTask t1 (runOfFactory mockExec)).sent =
      (s.acceptTask t2 (runOfFactory mockExec)).sent := by
  cases t1 with
  | mk ty1 id1 r1 b1 a1 ar1 st1 =>
    cases t2 with
    | mk ty2 id2 r2 b2 a2 ar2 st2 =>
      dsimp only at hty hid hrepo hbr hargs hset
      subst hty hid hrepo hbr hargs hset
      rfl

/-- Two tasks used to witness C9, identical except for the credentials. -/
def sampleTaskC9 (auth : TaskAuth) : TaskMessage :=
  { type := "task:custom", taskId := "t-c9", repo := "repo-url", branch := "main",
    auth := auth, args := [],
    settings := { verbose := true, debug := false,
                  validateFrontend := false, autoMerge := false } }

/-- Witness for C9 at two concrete tasks with different credentials. -/
theorem C9_auth_noninterference_witness :
    ((sampleTaskC9 { github := "gh-A", worker := "w-A" }).type =
       (sampleTaskC9 { github := "gh-B", worker := "w-B" }).type ∧
     (sampleTaskC9 { github := "gh-A", worker := "w-A" }).taskId =
       (sampleTaskC9 { github := "gh-B", worker := "w-B" }).taskId ∧
     (sampleTaskC9 { github := "gh-A", worker := "w-A" }).args =
       (sampleTaskC9 { github := "gh-B", worker := "w-B" }).args ∧
     (sampleTaskC9 { github := "gh-A", worker := "w-A" }).auth ≠
       (sampleTaskC9 { github := "gh-B", worker := "w-B" }).auth) ∧
    (TaskSession.acceptTask {} (sampleTaskC9 { github := "gh-A", worker := "w-A" })
        (runOfFactory mockExec)).sent =
      (TaskSession.acceptTask {} (sampleTaskC9 { github := "gh-B", worker := "w-B" })
        (runOfFactory mockExec)).sent :=
  ⟨⟨rfl, rfl, rfl, by decide⟩,
   C9_auth_noninterference (sampleTaskC9 { github := "gh-A", worker := "w-A" })
     (sampleTaskC9 { github := "gh-B", worker := "w-B" }) {} rfl rfl rfl rfl rfl rfl⟩

/-! ## Claim C10 -/

lemma handleLog_prUrl (h : MessageHandler) (m : AgentMessage) :
    (h.handleLog m).prUrl = h.prUrl := by
  unfold MessageHandler.handleLog
  rcases m.data.message with _ | msg
  · rfl
  · rcases m.data.level with _ | lvl
    · simp only [MessageHandler.logInfo]
      split_ifs <;> simp
    · cases lvl with
      | debug =>
        simp only [MessageHandler.logDebug]
        split_ifs <;> simp
      | info =>
        simp only [MessageHandler.logInfo]
        split_ifs <;> simp
      | warn => rfl
      | error => rfl

lemma handleProgress_prUrl (h : MessageHandler) (m : AgentMessage) :
    (h.handleProgress m).prUrl = h.prUrl := by
  unfold MessageHandler.handleProgress
  rcases m.data.progress with _ | p
  · rfl
  · simp [MessageHandler.logProgress]

lemma foldl_logWarn_prUrl (l : List String) : ∀ h : MessageHandler,
    (l.foldl (fun acc issue => acc.logWarn ("  - " ++ issue)) h).prUrl = h.prUrl := by
  induction l with
  | nil => intro h; rfl
  | cons x xs ih =>
    intro h
    simp only [List.foldl_cons]
    exact (ih (h.logWarn ("  - " ++ x))).trans (by simp [MessageHandler.logWarn])

lemma prCreatedValidation_prUrl (h2 : MessageHandler) (vr : Option ValidationResult) :
    (h2.prCreatedValidation vr).prUrl = h2.prUrl := by
  rcases vr with _ | v
  · rfl
  · simp only [MessageHandler.prCreatedValidation]
    by_cases hp : v.passed
    · rw [if_pos hp]; simp [MessageHandler.logSuccess]
    · rw [if_neg hp]
      exact (foldl_logWarn_prUrl v.issues
        (h2.logWarn "⚠ Frontend validation failed:")).trans
          (by simp [MessageHandler.logWarn])

lemma handlePRCreated_prUrl (h : MessageHandler) (m : AgentMessage) :
    (h.handlePRCreated m).prUrl = m.data.prUrl := by
  unfold MessageHandler.handlePRCreated
  exact (prCreatedValidation_prUrl _ m.data.validation).trans
    (by simp [MessageHandler.logSuccess])

lemma completeNext_prUrl (h1 : MessageHandler) :
    (h1.completeNext).prUrl = h1.prUrl := by
  unfold MessageHandler.completeNext
  by_cases hjs : jsTruthy h1.prUrl = true
  · rcases hurl : h1.prUrl with _ | url
    · rw [hurl] at hjs; simp [jsTruthy] at hjs
    · rw [hurl] at hjs
      simp only [hurl, hjs, if_true]
      obtain ⟨_, _, a3⟩ := logInfo_pres h1 "\nNext steps:"
      obtain ⟨_, _, b3⟩ :=
        logInfo_pres (h1.logInfo "\nNext steps:") ("  1. Review the PR: " ++ url)
      obtain ⟨_, _, c3⟩ :=
        logInfo_pres ((h1.logInfo "\nNext steps:").logInfo ("  1. Review the PR: " ++ url))
          "  2. Merge when ready"
      obtain ⟨_, _, d3⟩ :=
        logInfo_pres (((h1.logInfo "\nNext steps:").logInfo
          ("  1. Review the PR: " ++ url)).logInfo "  2. Merge when ready")
          "  3. Pull changes: jbish pull"
      exact d3.trans (c3.trans (b3.trans (a3.trans hurl)))
  · rw [if_neg hjs]

lemma handleComplete_prUrl (h : MessageHandler) (m : AgentMessage) :
    (h.handleComplete m).prUrl = h.prUrl := by
  unfold MessageHandler.handleComplete MessageHandler.completeFinish
  have hnext := completeNext_prUrl (h.logSuccess (jsOrStr m.data.message "Task completed"))
  split_ifs <;>
    simp_all [MessageHandler.logSuccess]

/-- Delivering only log and progress messages settles nothing and leaves
the future and the recorded PR URL untouched. -/
lemma deliverAll_logprogress (msgs : List AgentMessage)
    (hnt : ∀ m ∈ msgs, m.type = AgentMessageType.log ∨ m.type = AgentMessageType.progress) :
    ∀ mh : MessageHandler,
    (mh.deliverAll msgs).settles = mh.settles ∧
    (mh.deliverAll msgs).completionPending = mh.completionPending ∧
    (mh.deliverAll msgs).prUrl = mh.prUrl := by
  induction msgs with
  | nil => intro mh; exact ⟨rfl, rfl, rfl⟩
  | cons m rest ih =>
    intro mh
    have hm := hnt m (by simp)
    have hrest : ∀ x ∈ rest, x.type = AgentMessageType.log ∨
        x.type = AgentMessageType.progress := fun x hx => hnt x (by simp [hx])
    obtain ⟨i1, i2, i3⟩ := ih hrest (mh.handle m)
    have hstep : (mh.handle m).settles = mh.settles ∧
        (mh.handle m).completionPending = mh.completionPending ∧
        (mh.handle m).prUrl = mh.prUrl := by
      rcases hm with hty | hty <;> simp only [MessageHandler.handle, hty]
      · exact ⟨(handleLog_pres mh m).2, (handleLog_pres mh m).1, handleLog_prUrl mh m⟩
      · exact ⟨(handleProgress_pres mh m).2, (handleProgress_pres mh m).1,
               handleProgress_prUrl mh m⟩
    exact ⟨i1.trans hstep.1, i2.trans hstep.2.1, i3.trans hstep.2.2⟩

/-- The fixed PR URL of the simulated mock stream. -/
def mockPrUrl : String := "https://github.com/example/repo/pull/123"

/-- Claim C10: with useMock true (as generatePage hard-codes), connect
resolves immediately without opening any transport, sendTask does not
throw "WebSocket not connected" but returns the taskId together with the
fixed simulated stream (starting log, progress 25/50/75, the
generate_page-specific logs, a pr_created carrying the example PR URL, and
a final complete), and delivering that stream to a waiting MessageHandler
resolves the completion future exactly once and makes getPRUrl return the
mock URL — all without any server. -/
theorem C10_mock_client_flow
    (agentUrl : String) (verbose debug : Bool) (task : TaskMessage)
    (now : Int) (transportReady : Bool)
    (hty : task.type = "task:generate_page") :
    ((WebSocketClient.mk1 (generatePageClientOptions agentUrl verbose debug)).connect
        transportReady =
      .ok { WebSocketClient.mk1 (generatePageClientOptions agentUrl verbose debug) with
            console := ["Using mock WebSocket client"] }) ∧
    ((WebSocketClient.mk1 (generatePageClientOptions agentUrl verbose debug)).wsConnected
        = false) ∧
    ((WebSocketClient.mk1 (generatePageClientOptions agentUrl verbose debug)).sendTask
        task now =
      .ok (task.taskId,
           { WebSocketClient.mk1 (generatePageClientOptions agentUrl verbose debug) with
             taskId := some task.taskId },
           simulateMockResponse task now)) ∧
    (simulateMockResponse task now =
      [ { type := .log, taskId := task.taskId, timestamp := now,
          data := { message := some ("Starting task: " ++ task.type), level := some .info } },
        { type := .progress, taskId := task.taskId, timestamp := now + 1000,
          data := { progress := some 25, message := some "Cloning repository..." } },
        { type := .progress, taskId := task.taskId, timestamp := now + 2000,
          data := { progress := some 50, message := some "Analyzing project structure..." } },
        { type := .progress, taskId := task.taskId, timestamp := now + 3000,
          data := { progress := some 75, message := some "Generating code..." } },
        { type := .log, taskId := task.taskId, timestamp := now + 4000,
          data := { message := some ("Creating page: " ++ jsDisplay (task.args.lookup "pageName")),
                    level := some .info } } ]
      ++ (if task.settings.validateFrontend then
            [ { type := .log, taskId := task.taskId, timestamp := now + 5000,
                data := { message := some "Running frontend validation...",
                          level := some .info } } ]
          else [])
      ++ [ { type := .pr_created, taskId := task.taskId, timestamp := now + 6000,
             data := { prUrl := some mockPrUrl,
                       message := some "Pull request created successfully",
                       validation :=
                         if task.settings.validateFrontend then
                           some { passed := true, screenshots := ["screenshot-1.png"],
                                  issues := [] }
                         else none } },
           { type := .complete, taskId := task.taskId, timestamp := now + 7000,
             data := { message := some "Task completed successfully" } } ]) ∧
    (((MessageHandler.waitForCompletion
        { verbose := verbose, debug := debug }).deliverAll
          (simulateMockResponse task now)).settles = [Settle.resolved] ∧
     ((MessageHandler.waitForCompletion
        { verbose := verbose, debug := debug }).deliverAll
          (simulateMockResponse task now)).getPRUrl = some mockPrUrl) := by
  refine ⟨?_, rfl, ?_, ?_, ?_⟩
  · simp [WebSocketClient.connect, WebSocketClient.mk1, generatePageClientOptions]
  · simp [WebSocketClient.sendTask, WebSocketClient.mk1, generatePageClientOptions]
  · simp [simulateMockResponse, hty, mockPrUrl]
  · -- split the stream into the log/progress prefix, pr_created and complete
    have hstream : simulateMockResponse task now =
        ([ { type := .log, taskId := task.taskId, timestamp := now,
             data := { message := some ("Starting task: " ++ task.type),
                       level := some .info } },
           { type := .progress, taskId := task.taskId, timestamp := now + 1000,
             data := { progress := some 25, message := some "Cloning repository..." } },
           { type := .progress, taskId := task.taskId, timestamp := now + 2000,
             data := { progress := some 50,
                       message := some "Analyzing project structure..." } },
           { type := .progress, taskId := task.taskId, timestamp := now + 3000,
             data := { progress := some 75, message := some "Generating code..." } },
           { type := .log, taskId := task.taskId, timestamp := now + 4000,
             data := { message := some ("Creating page: " ++
                         jsDisplay (task.args.lookup "pageName")),
                       level := some .info } } ]
         ++ (if task.settings.validateFrontend then
              [ { type := .log, taskId := task.taskId, timestamp := now + 5000,
                  data := { message := some "Running frontend validation...",
                            level := some .info } } ]
             else []))
        ++ [ { type := .pr_created, taskId := task.taskId, timestamp := now + 6000,
               data := { prUrl := some mockPrUrl,
                         message := some "Pull request created successfully",
                         validation :=
                           if task.settings.validateFrontend then
                             some { passed := true, screenshots := ["screenshot-1.png"],
                                    issues := [] }
                           else none } },
             { type := .complete, taskId := task.taskId, timestamp := now + 7000,
               data := { message := some "Task completed successfully" } } ] := by
      simp [simulateMockResponse, hty, mockPrUrl]
    rw [hstream]
    set mh0 : MessageHandler :=
      MessageHandler.waitForCompletion { verbose := verbose, debug := debug } with hmh0
    set pre : List AgentMessage :=
      ([ { type := .log, taskId := task.taskId, timestamp := now,
           data := { message := some ("Starting task: " ++ task.type),
                     level := some .info } },
         { type := .progress, taskId := task.taskId, timestamp := now + 1000,
           data := { progress := some 25, message := some "Cloning repository..." } },
         { type := .progress, taskId := task.taskId, timestamp := now + 2000,
           data := { progress := some 50,
                     message := some "Analyzing project structure..." } },
         { type := .progress, taskId := task.taskId, timestamp := now + 3000,
           data := { progress := some 75, message := some "Generating code..." } },
         { type := .log, taskId := task.taskId, timestamp := now + 4000,
           data := { message := some ("Creating page: " ++
                       jsDisplay (task.args.lookup "pageName")),
                     level := some .info } } ]
       ++ (if task.settings.validateFrontend then
            [ { type := .log, taskId := task.taskId, timestamp := now + 5000,
                data := { message := some "Running frontend validation...",
                          level := some .info } } ]
           else [])) with hpre
    set prC : AgentMessage :=
      { type := .pr_created, taskId := task.taskId, timestamp := now + 6000,
        data := { prUrl := some mockPrUrl,
                  message := some "Pull request created successfully",
                  validation :=
                    if task.settings.validateFrontend then
                      some { passed := true, screenshots := ["screenshot-1.png"],
                             issues := [] }
                    else none } } with hprC
    set compl : AgentMessage :=
      { type := .complete, taskId := task.taskId, timestamp := now + 7000,
        data := { message := some "Task completed successfully" } } with hcompl
    have hfold : mh0.deliverAll (pre ++ [prC, compl]) =
        (((mh0.deliverAll pre).handlePRCreated prC).handleComplete compl) := by
      show (pre ++ [prC, compl]).foldl MessageHandler.handle mh0 = _
      rw [List.foldl_append]
      rfl
    have hprelp : ∀ m ∈ pre, m.type = AgentMessageType.log ∨
        m.type = AgentMessageType.progress := by
      intro m hm
      rw [hpre] at hm
      rcases List.mem_append.mp hm with hmem | hmem
      · simp at hmem
        rcases hmem with h | h | h | h | h <;> subst h <;> simp
      · by_cases hvf : task.settings.validateFrontend = true <;> simp [hvf] at hmem
        subst hmem; simp
    obtain ⟨d1, d2, d3⟩ := deliverAll_logprogress pre hprelp mh0
    have hmh0p : mh0.completionPending = true := by rw [hmh0]; rfl
    have hmh0s : mh0.settles = [] := by rw [hmh0]; rfl
    obtain ⟨q1, q2⟩ := handlePRCreated_pres (mh0.deliverAll pre) prC
    have qurl : ((mh0.deliverAll pre).handlePRCreated prC).prUrl = some mockPrUrl := by
      rw [handlePRCreated_prUrl, hprC]
    obtain ⟨c1, c2⟩ := handleComplete_spec ((mh0.deliverAll pre).handlePRCreated prC) compl
    constructor
    · rw [hfold, c2, q2, d1, hmh0s, q1, d2, hmh0p]
      simp
    · rw [MessageHandler.getPRUrl, hfold, handleComplete_prUrl, qurl]

/-- A concrete generate_page task used to witness C10. -/
def sampleTaskC10 : TaskMessage :=
  { type := "task:generate_page", taskId := "t-c10", repo := "repo-url", branch := "main",
    auth := { github := "gh-token", worker := "jwt" },
    args := [("pageName", .str "pricing")],
    settings := { verbose := true, debug := false,
                  validateFrontend := true, autoMerge := false } }

/-- Witness for C10 at a concrete generate_page task. -/
theorem C10_mock_client_flow_witness :
    (sampleTaskC10.type = "task:generate_page") ∧
    (((MessageHandler.waitForCompletion
        { verbose := true, debug := false }).deliverAll
          (simulateMockResponse sampleTaskC10 0)).settles = [Settle.resolved] ∧
     ((MessageHandler.waitForCompletion
        { verbose := true, debug := false }).deliverAll
          (simulateMockResponse sampleTaskC10 0)).getPRUrl = some mockPrUrl) :=
  ⟨rfl,
   (C10_mock_client_flow "https://jbishkit-agent.workers.dev" true false sampleTaskC10 0
     false rfl).2.2.2.2⟩

end JBishKit
